import Mathlib

/-! # LF OS toolchain of the clang driver

A shallow embedding of `clang/lib/Driver/ToolChains/LFOS.cpp` and `LFOS.h`:
the option-policy resolvers (`GetRuntimeLibType`, `GetUnwindLibType`,
`GetCXXStdlibType`), the include-path resolvers, the cc1 option injector and
the link-command builder `lfos::Linker::ConstructJob`.

An `ArgStringList` that a C++ function extends by reference is a list that the
embedded function takes and returns. Diagnostics reported on the driver are
returned next to the result, in the order they are reported. A failed
`assert` or a reached `llvm_unreachable` is the result `none`.
-/

set_option autoImplicit false

namespace LFOS

/-! ## Options and argument lists -/

/-- The option identifiers (`options::OPT_...`) that the LF OS toolchain consults. -/
inductive OptID
  | OPT_g_Group | OPT_emit_llvm | OPT_w
  | OPT_s | OPT_static | OPT_shared
  | OPT_nostdlib | OPT_nostartfiles | OPT_nodefaultlibs | OPT_nolibc
  | OPT_static_libstdcxx
  | OPT_L | OPT_u | OPT_l
  | OPT_rtlib_EQ | OPT_stdlib_EQ
  | OPT_fuse_init_array | OPT_fno_use_init_array
  | OPT_nostdinc | OPT_nobuiltininc | OPT_nostdlibinc | OPT_nostdincxx
  deriving DecidableEq, Repr

/-- One parsed command-line argument (`llvm::opt::Arg`): the option it matches, its value
(`getValue()`), its spelling together with its values (`getAsString(Args)`) and the strings
that `render` forwards to a tool. -/
structure Arg where
  ID : OptID
  Value : String
  AsString : String
  Rendered : List String
  deriving DecidableEq, Repr

/-- The parsed arguments of one job, in command-line order (`llvm::opt::ArgList`). -/
abbrev ArgList := List Arg

/-- The argument strings handed to a tool (`llvm::opt::ArgStringList`). -/
abbrev ArgStringList := List String

/-- Modelled from the spec: `ArgList::getLastArg` is declared in `llvm/Option/ArgList.h`, outside
`src/`. It is the last argument, in command-line order, that matches one of the given options,
if there is one. -/
def getLastArg (Args : ArgList) (Ids : List OptID) : Option Arg :=
  (Args.filter (fun A => Ids.contains A.ID)).getLast?

/-- Modelled from the spec: `ArgList::hasArg` is declared in `llvm/Option/ArgList.h`, outside
`src/`. An option is set when some argument matches one of the given options. -/
def hasArg (Args : ArgList) (Ids : List OptID) : Bool :=
  (getLastArg Args Ids).isSome

/-- Modelled from the spec: `ArgList::hasFlag` is declared in `llvm/Option/ArgList.h`, outside
`src/`. The last of the positive and the negative form decides, and the default holds when
neither is given. -/
def hasFlag (Args : ArgList) (Pos Neg : OptID) (Default : Bool) : Bool :=
  match getLastArg Args [Pos, Neg] with
  | some A => A.ID == Pos
  | none => Default

/-- Modelled from the spec: `ArgList::AddAllArgs` is declared in `llvm/Option/ArgList.h`, outside
`src/`. It forwards every argument that matches the option, in the order given, each as it
renders. -/
def AddAllArgs (Args : ArgList) (CmdArgs : ArgStringList) (Id : OptID) : ArgStringList :=
  CmdArgs ++ ((Args.filter (fun A => A.ID == Id)).map Arg.Rendered).flatten

/-! ## Diagnostics -/

/-- The diagnostic kinds the toolchain reports. -/
inductive DiagID
  | err_drv_invalid_rtlib_name
  | err_drv_invalid_stdlib_name
  deriving DecidableEq, Repr

/-- A reported diagnostic: its kind and the streamed argument. -/
structure Diagnostic where
  ID : DiagID
  Argument : String
  deriving DecidableEq, Repr

/-! ## Toolchain enumerations and fixed defaults (`LFOS.h`) -/

/-- The runtime library kinds of `ToolChain::RuntimeLibType`. -/
inductive RuntimeLibType
  | RLT_CompilerRT | RLT_Libgcc
  deriving DecidableEq, Repr

/-- The unwind library kinds of `ToolChain::UnwindLibType`. -/
inductive UnwindLibType
  | UNW_None | UNW_CompilerRT | UNW_Libgcc
  deriving DecidableEq, Repr

/-- The C++ standard library kinds of `ToolChain::CXXStdlibType`. -/
inductive CXXStdlibType
  | CST_Libcxx | CST_Libstdcxx
  deriving DecidableEq, Repr

/-- The link-time optimisation modes of the driver (`LTOKind`). -/
inductive LTOKind
  | LTOK_None | LTOK_Full | LTOK_Thin | LTOK_Unknown
  deriving DecidableEq, Repr

/-- The exception handling models the header names. -/
inductive ExceptionHandling
  | None | DwarfCFI | SjLj | ARM | WinEH | Wasm
  deriving DecidableEq, Repr

/-- The debugger kinds the header names. -/
inductive DebuggerKind
  | Default | GDB | LLDB | SCE
  deriving DecidableEq, Repr

def HasNativeLLVMSupport : Bool := true

def IsIntegratedAssemblerDefault : Bool := true

def IsMathErrnoDefault : Bool := false

def useRelaxRelocations : Bool := true

def GetDefaultRuntimeLibType : RuntimeLibType := RuntimeLibType.RLT_CompilerRT

def GetDefaultCXXStdlibType : CXXStdlibType := CXXStdlibType.CST_Libcxx

def IsUnwindTablesDefault (_Args : ArgList) : Bool := false

def GetExceptionModel (_Args : ArgList) : ExceptionHandling := ExceptionHandling.SjLj

def isPICDefault : Bool := false

def isPIEDefault : Bool := true

def isPICDefaultForced : Bool := false

def getDefaultDebuggerTuning : DebuggerKind := DebuggerKind.GDB

/-- The default stack protector level, 2 being `SSPStrong`. -/
def GetDefaultStackProtectorLevel (_KernelOrKext : Bool) : Nat := 2

def getDefaultLinker : String := "ld.lld"

/-! ## Jobs, inputs and the collaborators of the toolchain -/

/-- A job input or output (`clang::driver::InputInfo`): a file name, or an input argument that is
forwarded to the tool as it renders (a library option, for one). -/
inductive InputInfo
  | Filename (Name : String)
  | InputArg (A : Arg)
  deriving DecidableEq, Repr

/-- The accessor `InputInfo::getFilename`, which asserts that the input is a file name. -/
def InputInfo.getFilename : InputInfo → Option String
  | InputInfo.Filename Name => some Name
  | InputInfo.InputArg _ => none

abbrev InputInfoList := List InputInfo

/-- The build action a job belongs to; the builder only hands it on. -/
structure JobAction where
  Kind : Nat
  deriving DecidableEq, Repr

/-- A command of the compilation (`clang::driver::Command`): the action it comes from, the
executable to invoke, its arguments and its inputs. -/
structure Command where
  Source : JobAction
  Executable : String
  Arguments : ArgStringList
  Inputs : InputInfoList
  deriving DecidableEq, Repr

/-- The compilation a job is constructed for: its commands so far and the diagnostics reported on
its driver so far. -/
structure Compilation where
  Jobs : List Command
  Diags : List Diagnostic
  deriving DecidableEq, Repr

def Compilation.addCommand (C : Compilation) (Cmd : Command) : Compilation :=
  { C with Jobs := C.Jobs ++ [Cmd] }

/-- The state of the driver that the toolchain reads (`clang::driver::Driver`). -/
structure Driver where
  SysRoot : String
  ResourceDir : String
  CCCIsCXX : Bool
  isUsingLTO : Bool
  getLTOMode : LTOKind

/-- The collaborators of the LF OS toolchain that live outside `LFOS.cpp`, each taken as a
parameter: the driver, the program and file search of the base `ToolChain`, the helpers of
`CommonArgs.h` and the path join of `llvm::sys::path`. A helper that extends an argument list
is given by the strings it appends. -/
structure ToolChain where
  D : Driver
  GetLinkerPath : String
  GetFilePath : String → String
  AddFilePathLibArgs : ArgList → ArgStringList
  ShouldLinkCXXStdlib : ArgList → Bool
  addLTOOptions : ArgList → InputInfo → InputInfo → Bool → ArgStringList
  AddLinkerInputs : InputInfoList → ArgList → JobAction → ArgStringList
  AddRunTimeLibs : ArgList → ArgStringList × List Diagnostic
  addSystemInclude : String → ArgStringList
  addExternCSystemInclude : String → ArgStringList
  path_append : String → List String → String

/-! ## Option policy (`LFOS.cpp`) -/

/-- The runtime library of a job, with the diagnostics reported while resolving it. -/
def GetRuntimeLibType (Args : ArgList) : RuntimeLibType × List Diagnostic :=
  let Diags : List Diagnostic :=
    match getLastArg Args [OptID.OPT_rtlib_EQ] with
    | some A =>
      if A.Value ≠ "compiler-rt" then
        [{ ID := DiagID.err_drv_invalid_rtlib_name, Argument := A.AsString }]
      else []
    | none => []
  (RuntimeLibType.RLT_CompilerRT, Diags)

/-- The unwind library of a job. -/
def GetUnwindLibType (_Args : ArgList) : UnwindLibType :=
  UnwindLibType.UNW_CompilerRT

/-- The C++ standard library of a job, with the diagnostics reported while resolving it. -/
def GetCXXStdlibType (Args : ArgList) : CXXStdlibType × List Diagnostic :=
  let Diags : List Diagnostic :=
    match getLastArg Args [OptID.OPT_stdlib_EQ] with
    | some A =>
      if A.Value ≠ "libc++" then
        [{ ID := DiagID.err_drv_invalid_stdlib_name, Argument := A.AsString }]
      else []
    | none => []
  (CXXStdlibType.CST_Libcxx, Diags)

/-! ## Compile jobs (`LFOS.cpp`) -/

/-- The offload kinds of `Action::OffloadKind`. -/
inductive OffloadKind
  | OFK_None | OFK_Host | OFK_Cuda | OFK_OpenMP | OFK_HIP
  deriving DecidableEq, Repr

/-- The cc1 options the platform adds to a compile job, whatever the offload kind. -/
def addClangTargetOptions (DriverArgs : ArgList) (CC1Args : ArgStringList)
    (_DeviceOffloadKind : OffloadKind) : ArgStringList :=
  let CC1Args :=
    if !hasFlag DriverArgs OptID.OPT_fuse_init_array OptID.OPT_fno_use_init_array true then
      CC1Args ++ ["-fno-use-init-array"]
    else CC1Args
  let CC1Args := CC1Args ++ ["-mlong-double-64"]
  let CC1Args := CC1Args ++ ["-ffunction-sections"]
  CC1Args ++ ["-fdata-sections"]

/-- The system include directories of a compile job. -/
def AddClangSystemIncludeArgs (TC : ToolChain) (DriverArgs : ArgList)
    (CC1Args : ArgStringList) : ArgStringList :=
  if hasArg DriverArgs [OptID.OPT_nostdinc] then CC1Args
  else
    let CC1Args :=
      if !hasArg DriverArgs [OptID.OPT_nobuiltininc] then
        CC1Args ++ TC.addSystemInclude (TC.path_append TC.D.ResourceDir ["include"])
      else CC1Args
    if hasArg DriverArgs [OptID.OPT_nostdlibinc] then CC1Args
    else if TC.D.SysRoot ≠ "" then
      CC1Args ++ TC.addExternCSystemInclude (TC.path_append TC.D.SysRoot ["include"])
    else CC1Args

/-- The C++ standard library include directory of a compile job, with the diagnostics reported
on the way; `none` for the list is the unreachable default of the switch. -/
def AddClangCXXStdlibIncludeArgs (TC : ToolChain) (DriverArgs : ArgList)
    (CC1Args : ArgStringList) : Option ArgStringList × List Diagnostic :=
  if hasArg DriverArgs [OptID.OPT_nostdlibinc] || hasArg DriverArgs [OptID.OPT_nostdincxx] then
    (some CC1Args, [])
  else
    match GetCXXStdlibType DriverArgs with
    | (CXXStdlibType.CST_Libcxx, Diags) =>
      (some (CC1Args ++ TC.addSystemInclude (TC.path_append TC.D.SysRoot ["include", "c++", "v1"])),
        Diags)
    | (_, Diags) => (none, Diags)

/-! ## Link jobs (`LFOS.cpp`) -/

/-- The link flag of the C++ standard library, with the diagnostics reported on the way; `none`
for the list is the unreachable case of the switch. -/
def AddCXXStdlibLibArgs (Args : ArgList) (CmdArgs : ArgStringList) :
    Option ArgStringList × List Diagnostic :=
  match GetCXXStdlibType Args with
  | (CXXStdlibType.CST_Libcxx, Diags) => (some (CmdArgs ++ ["-lc++"]), Diags)
  | (CXXStdlibType.CST_Libstdcxx, Diags) => (none, Diags)

/-- The link-command builder `lfos::Linker::ConstructJob`. The three `ClaimAllArgs` calls only
mark options as used and append nothing. The result is the compilation with the linker command
added, or `none` when an assertion of the body fails. -/
def ConstructJob (TC : ToolChain) (C : Compilation) (JA : JobAction) (Output : InputInfo)
    (Inputs : InputInfoList) (Args : ArgList) : Option Compilation :=
  let D := TC.D
  let CmdArgs : ArgStringList := []
  let Exec := TC.GetLinkerPath
  let CmdArgs := if D.SysRoot ≠ "" then CmdArgs ++ ["--sysroot=" ++ D.SysRoot] else CmdArgs
  let CmdArgs := if hasArg Args [OptID.OPT_s] then CmdArgs ++ ["-s"] else CmdArgs
  let CmdArgs :=
    if hasArg Args [OptID.OPT_static] then CmdArgs ++ ["-Bstatic"]
    else if hasArg Args [OptID.OPT_shared] then CmdArgs ++ ["-shared"]
    else CmdArgs
  let CmdArgs := CmdArgs ++ ["-o"]
  match Output.getFilename with
  | none => none
  | some OutputFilename =>
    let CmdArgs := CmdArgs ++ [OutputFilename]
    let CmdArgs :=
      if !hasArg Args [OptID.OPT_nostdlib, OptID.OPT_nostartfiles] then
        if !hasArg Args [OptID.OPT_shared] then CmdArgs ++ [TC.GetFilePath "crt1.o"]
        else CmdArgs
      else CmdArgs
    let CmdArgs := AddAllArgs Args CmdArgs OptID.OPT_L
    let CmdArgs := AddAllArgs Args CmdArgs OptID.OPT_u
    let CmdArgs := CmdArgs ++ TC.AddFilePathLibArgs Args
    let WithLTO : Option ArgStringList :=
      if D.isUsingLTO then
        match Inputs with
        | [] => none
        | Input0 :: _ =>
          some (CmdArgs ++ TC.addLTOOptions Args Output Input0 (D.getLTOMode == LTOKind.LTOK_Thin))
      else some CmdArgs
    match WithLTO with
    | none => none
    | some CmdArgs =>
      let CmdArgs := CmdArgs ++ TC.AddLinkerInputs Inputs Args JA
      let Libs : Option ArgStringList × List Diagnostic :=
        if !hasArg Args [OptID.OPT_nostdlib, OptID.OPT_nodefaultlibs] then
          let CmdArgs := if hasArg Args [OptID.OPT_static] then CmdArgs ++ ["-Bdynamic"] else CmdArgs
          let Std : Option ArgStringList × List Diagnostic :=
            if D.CCCIsCXX then
              if TC.ShouldLinkCXXStdlib Args then
                let OnlyLibstdcxxStatic :=
                  hasArg Args [OptID.OPT_static_libstdcxx] && !hasArg Args [OptID.OPT_static]
                let CmdArgs := CmdArgs ++ ["--push-state"]
                let CmdArgs := CmdArgs ++ ["--as-needed"]
                let CmdArgs := if OnlyLibstdcxxStatic then CmdArgs ++ ["-Bstatic"] else CmdArgs
                match AddCXXStdlibLibArgs Args CmdArgs with
                | (none, Diags) => (none, Diags)
                | (some CmdArgs, Diags) =>
                  let CmdArgs := if OnlyLibstdcxxStatic then CmdArgs ++ ["-Bdynamic"] else CmdArgs
                  let CmdArgs := CmdArgs ++ ["-lm"]
                  (some (CmdArgs ++ ["--pop-state"]), Diags)
              else (some CmdArgs, [])
            else (some CmdArgs, [])
          match Std with
          | (none, Diags) => (none, Diags)
          | (some CmdArgs, Diags) =>
            let CmdArgs := CmdArgs ++ (TC.AddRunTimeLibs Args).1
            let Diags := Diags ++ (TC.AddRunTimeLibs Args).2
            let CmdArgs := if !hasArg Args [OptID.OPT_nolibc] then CmdArgs ++ ["-lc"] else CmdArgs
            (some CmdArgs, Diags)
        else (some CmdArgs, [])
      match Libs with
      | (none, _) => none
      | (some CmdArgs, Diags) =>
        some (Compilation.addCommand { C with Diags := C.Diags ++ Diags }
          { Source := JA, Executable := Exec, Arguments := CmdArgs, Inputs := Inputs })

/-! ## A concrete toolchain for the examples -/

/-- A toolchain with system root `/sdk`: files are found under `/sdk/lib`, the linker inputs are
forwarded by name or as they render, and the runtime library is resolved through
`GetRuntimeLibType`. -/
def sdkToolChain : ToolChain where
  D := { SysRoot := "/sdk", ResourceDir := "/res", CCCIsCXX := true, isUsingLTO := false,
         getLTOMode := LTOKind.LTOK_None }
  GetLinkerPath := "ld.lld"
  GetFilePath := fun Name => "/sdk/lib/" ++ Name
  AddFilePathLibArgs := fun _ => ["-L/sdk/lib"]
  ShouldLinkCXXStdlib := fun _ => true
  addLTOOptions := fun _ _ _ IsThin => if IsThin then ["-plugin-opt=thinlto"] else ["-plugin-opt=O2"]
  AddLinkerInputs := fun Inputs _ _ =>
    (Inputs.map (fun II => match II with
      | InputInfo.Filename Name => [Name]
      | InputInfo.InputArg A => A.Rendered)).flatten
  AddRunTimeLibs := fun Args => (["/res/lib/libclang_rt.builtins.a"], (GetRuntimeLibType Args).2)
  addSystemInclude := fun P => ["-internal-isystem", P]
  addExternCSystemInclude := fun P => ["-internal-externc-isystem", P]
  path_append := fun P Cs => Cs.foldl (fun Acc Comp => Acc ++ "/" ++ Comp) P

/-- A flag argument, which has no value. -/
def flagArg (Id : OptID) (Spelling : String) : Arg :=
  { ID := Id, Value := "", AsString := Spelling, Rendered := [Spelling] }

/-- The empty compilation. -/
def emptyCompilation : Compilation := { Jobs := [], Diags := [] }

/-- The library option `-lc` as the user gives it, a linker input. -/
def libcArg : Arg :=
  { ID := OptID.OPT_l, Value := "c", AsString := "-lc", Rendered := ["-lc"] }

/-- The library option `-lm` as the user gives it, a linker input. -/
def libmArg : Arg :=
  { ID := OptID.OPT_l, Value := "m", AsString := "-lm", Rendered := ["-lm"] }

/-- The option `-rtlib=libgcc`, a request for a runtime library the platform does not support. -/
def rtlibLibgccArg : Arg :=
  { ID := OptID.OPT_rtlib_EQ, Value := "libgcc", AsString := "-rtlib=libgcc",
    Rendered := ["-rtlib=libgcc"] }

/-- The option `-stdlib=libstdc++`, a request for a C++ standard library the platform does not
support. -/
def stdlibLibstdcxxArg : Arg :=
  { ID := OptID.OPT_stdlib_EQ, Value := "libstdc++", AsString := "-stdlib=libstdc++",
    Rendered := ["-stdlib=libstdc++"] }

/-- The option `-stdlib=libc++`, the one supported request. -/
def stdlibLibcxxArg : Arg :=
  { ID := OptID.OPT_stdlib_EQ, Value := "libc++", AsString := "-stdlib=libc++",
    Rendered := ["-stdlib=libc++"] }

/-- The option `-u sym` as the user gives it; it renders as two strings. -/
def undefinedSymArg : Arg :=
  { ID := OptID.OPT_u, Value := "sym", AsString := "-u sym", Rendered := ["-u", "sym"] }

/-- The option `-L/p` as the user gives it; it renders joined. -/
def libraryPathArg : Arg :=
  { ID := OptID.OPT_L, Value := "/p", AsString := "-L/p", Rendered := ["-L/p"] }

/-- The concrete toolchain with thin LTO active. -/
def sdkToolChainLTO : ToolChain :=
  { sdkToolChain with
    D := { SysRoot := "/sdk", ResourceDir := "/res", CCCIsCXX := true, isUsingLTO := true,
           getLTOMode := LTOKind.LTOK_Thin } }

/-! ## The segments of the link command

The argument vector that `ConstructJob` hands to the linker, described segment by segment in the
order of emission. These definitions follow the steps of the builder as the specification lists
them; `ConstructJob_eq` below proves that the builder emits their concatenation. -/

/-- The header: the system root when one is configured, the strip flag, the linking mode flag
(static before shared), the output flag and the output path. -/
def headerArgs (TC : ToolChain) (Out : String) (Args : ArgList) : ArgStringList :=
  (if TC.D.SysRoot ≠ "" then ["--sysroot=" ++ TC.D.SysRoot] else []) ++
  (if hasArg Args [OptID.OPT_s] then ["-s"] else []) ++
  (if hasArg Args [OptID.OPT_static] then ["-Bstatic"]
   else if hasArg Args [OptID.OPT_shared] then ["-shared"] else []) ++
  ["-o", Out]

/-- The C runtime start object, unless start files are suppressed or a shared object is built. -/
def startFileArgs (TC : ToolChain) (Args : ArgList) : ArgStringList :=
  if hasArg Args [OptID.OPT_nostdlib] = false ∧ hasArg Args [OptID.OPT_nostartfiles] = false ∧
      hasArg Args [OptID.OPT_shared] = false then
    [TC.GetFilePath "crt1.o"]
  else []

/-- The forwarded library search path options, then the forwarded undefined-symbol options. -/
def forwardedArgs (Args : ArgList) : ArgStringList :=
  ((Args.filter (fun A => A.ID == OptID.OPT_L)).map Arg.Rendered).flatten ++
  ((Args.filter (fun A => A.ID == OptID.OPT_u)).map Arg.Rendered).flatten

/-- The LTO configuration, derived from the first input, when LTO is active. -/
def ltoArgs (TC : ToolChain) (Out : String) (Inputs : InputInfoList) (Args : ArgList) :
    ArgStringList :=
  if TC.D.isUsingLTO then
    match Inputs with
    | [] => []
    | Input0 :: _ =>
      TC.addLTOOptions Args (InputInfo.Filename Out) Input0 (TC.D.getLTOMode == LTOKind.LTOK_Thin)
  else []

/-- The C++ standard library group, emitted in C++ mode when the library is to be linked. -/
def cxxGroupArgs (TC : ToolChain) (Args : ArgList) : ArgStringList :=
  if TC.D.CCCIsCXX = true ∧ TC.ShouldLinkCXXStdlib Args = true then
    ["--push-state", "--as-needed"] ++
    (if hasArg Args [OptID.OPT_static_libstdcxx] = true ∧ hasArg Args [OptID.OPT_static] = false
      then ["-Bstatic"] else []) ++
    ["-lc++"] ++
    (if hasArg Args [OptID.OPT_static_libstdcxx] = true ∧ hasArg Args [OptID.OPT_static] = false
      then ["-Bdynamic"] else []) ++
    ["-lm", "--pop-state"]
  else []

/-- The default libraries, unless suppressed: the switch to dynamic mode when static linking is
requested, the C++ group, the runtime libraries and the C library. -/
def defaultLibArgs (TC : ToolChain) (Args : ArgList) : ArgStringList :=
  if hasArg Args [OptID.OPT_nostdlib] = false ∧ hasArg Args [OptID.OPT_nodefaultlibs] = false then
    (if hasArg Args [OptID.OPT_static] then ["-Bdynamic"] else []) ++
    cxxGroupArgs TC Args ++
    (TC.AddRunTimeLibs Args).1 ++
    (if hasArg Args [OptID.OPT_nolibc] = false then ["-lc"] else [])
  else []

/-- The whole vector, in the order of emission. -/
def linkArgs (TC : ToolChain) (JA : JobAction) (Out : String) (Inputs : InputInfoList)
    (Args : ArgList) : ArgStringList :=
  headerArgs TC Out Args ++ startFileArgs TC Args ++ forwardedArgs Args ++
  TC.AddFilePathLibArgs Args ++ ltoArgs TC Out Inputs Args ++ TC.AddLinkerInputs Inputs Args JA ++
  defaultLibArgs TC Args

/-- The diagnostics reported while the default libraries are added. -/
def linkDiags (TC : ToolChain) (Args : ArgList) : List Diagnostic :=
  if hasArg Args [OptID.OPT_nostdlib] = false ∧ hasArg Args [OptID.OPT_nodefaultlibs] = false then
    (if TC.D.CCCIsCXX = true ∧ TC.ShouldLinkCXXStdlib Args = true then (GetCXXStdlibType Args).2
     else []) ++ (TC.AddRunTimeLibs Args).2
  else []

/-! ## The entries of the include list

The include directories that `AddClangSystemIncludeArgs` adds, described entry by entry as the
specification lists them. -/

/-- One entry of the include list of a compile job: a system include directory, or a system
include directory whose headers are treated as extern C. -/
inductive IncludeEntry
  | System (Path : String)
  | ExternCSystem (Path : String)
  deriving DecidableEq, Repr

/-- The cc1 arguments that add one entry, through the helper of the base toolchain for its
kind. -/
def IncludeEntry.render (TC : ToolChain) : IncludeEntry → ArgStringList
  | IncludeEntry.System Path => TC.addSystemInclude Path
  | IncludeEntry.ExternCSystem Path => TC.addExternCSystemInclude Path

/-- The include list as the specification states it: empty when nostdinc is set; otherwise the
built-in directory `<resource-dir>/include` unless nobuiltininc is set, followed, unless
nostdlibinc is set, by `<sysroot>/include` as an extern C system include when a system root is
configured. -/
def systemIncludeEntries (TC : ToolChain) (DriverArgs : ArgList) : List IncludeEntry :=
  if hasArg DriverArgs [OptID.OPT_nostdinc] = true then []
  else
    (if hasArg DriverArgs [OptID.OPT_nobuiltininc] = true then []
     else [IncludeEntry.System (TC.path_append TC.D.ResourceDir ["include"])]) ++
    (if hasArg DriverArgs [OptID.OPT_nostdlibinc] = true then []
     else if TC.D.SysRoot ≠ "" then
       [IncludeEntry.ExternCSystem (TC.path_append TC.D.SysRoot ["include"])]
     else [])

/-! ## Lemmas on argument lists -/

theorem hasArg_iff (Args : ArgList) (Ids : List OptID) :
    hasArg Args Ids = true ↔ ∃ A ∈ Args, A.ID ∈ Ids := by
  unfold hasArg getLastArg
  simp only [Option.isSome_iff_ne_none, ne_eq, List.getLast?_eq_none_iff]
  rw [List.filter_eq_nil_iff]
  simp

theorem hasArg_pair (Args : ArgList) (a b : OptID) :
    hasArg Args [a, b] = (hasArg Args [a] || hasArg Args [b]) := by
  rw [Bool.eq_iff_iff, Bool.or_eq_true, hasArg_iff, hasArg_iff, hasArg_iff]
  simp only [List.mem_cons, List.mem_singleton, List.not_mem_nil, or_false]
  constructor
  · rintro ⟨A, hA, h | h⟩
    · exact Or.inl ⟨A, hA, h⟩
    · exact Or.inr ⟨A, hA, h⟩
  · rintro (⟨A, hA, h⟩ | ⟨A, hA, h⟩)
    · exact ⟨A, hA, Or.inl h⟩
    · exact ⟨A, hA, Or.inr h⟩

theorem ite_append_common {α : Type} (c : Prop) [Decidable c] (l m n : List α) :
    (if c then l ++ m else l ++ n) = l ++ (if c then m else n) := by
  split <;> rfl

theorem ite_append_self {α : Type} (c : Prop) [Decidable c] (l m : List α) :
    (if c then l ++ m else l) = l ++ (if c then m else []) := by
  split <;> simp

/-! ## The builder emits the segments in order -/

/-- Whenever the LTO assertion holds, `ConstructJob` adds exactly one command: the linker found on
the program path, run on the concatenation of the segments. -/
theorem ConstructJob_eq (TC : ToolChain) (C : Compilation) (JA : JobAction) (Out : String)
    (Inputs : InputInfoList) (Args : ArgList) (hLTO : TC.D.isUsingLTO = true → Inputs ≠ []) :
    ConstructJob TC C JA (InputInfo.Filename Out) Inputs Args =
      some { Jobs := C.Jobs ++ [{ Source := JA, Executable := TC.GetLinkerPath,
                                  Arguments := linkArgs TC JA Out Inputs Args, Inputs := Inputs }],
             Diags := C.Diags ++ linkDiags TC Args } := by
  unfold linkArgs linkDiags headerArgs startFileArgs forwardedArgs ltoArgs
    defaultLibArgs cxxGroupArgs GetCXXStdlibType
  have hIn : TC.D.isUsingLTO = false ∨ ∃ I0 Is, Inputs = I0 :: Is := by
    cases hl : TC.D.isUsingLTO
    · exact Or.inl rfl
    · cases Inputs with
      | nil => exact absurd rfl (hLTO hl)
      | cons I0 Is => exact Or.inr ⟨I0, Is, rfl⟩
  unfold ConstructJob
  simp only [hasArg_pair, InputInfo.getFilename, AddAllArgs, AddCXXStdlibLibArgs, GetCXXStdlibType,
    ite_append_self, ite_append_common]
  generalize hasArg Args [OptID.OPT_nostdlib] = bnostdlib
  generalize hasArg Args [OptID.OPT_nodefaultlibs] = bnodef
  generalize TC.ShouldLinkCXXStdlib Args = bcxx
  rcases hIn with hl | ⟨I0, Is, rfl⟩
  · rw [hl]
    cases bnostdlib <;> cases bnodef <;> cases bcxx <;> cases TC.D.CCCIsCXX <;>
      simp [Compilation.addCommand, ite_and]
  · cases TC.D.isUsingLTO <;>
    cases bnostdlib <;> cases bnodef <;> cases bcxx <;> cases TC.D.CCCIsCXX <;>
      simp [Compilation.addCommand, ite_and]

theorem sysroot_flag_ne (S x : String) (hx : x.length < 10) : "--sysroot=" ++ S ≠ x := by
  intro h
  have hlen := congrArg String.length h
  rw [String.length_append] at hlen
  have h10 : "--sysroot=".length = 10 := by decide
  omega

/-! ## The link command of a plain C++ link -/

/-- Claim C1. A link with a system root `S`, neither static nor shared, without strip, without any
of nostdlib, nostartfiles, nodefaultlibs and nolibc, without static-libstdc++, with LTO inactive,
in C++ mode with the C++ standard library linked, adds one command whose arguments are exactly
`--sysroot=S`, `-o`, the output, the crt1 path, the forwarded `-L` options, the forwarded `-u`
options, the library-path args of the toolchain, the linker inputs, `--push-state`,
`--as-needed`, `-lc++`, `-lm`, `--pop-state`, the runtime-library args and `-lc`. -/
theorem C1_ConstructJob_cxx_link_vector (TC : ToolChain) (C : Compilation) (JA : JobAction)
    (Out : String) (Inputs : InputInfoList) (Args : ArgList)
    (hSysRoot : TC.D.SysRoot ≠ "")
    (hStrip : hasArg Args [OptID.OPT_s] = false)
    (hStatic : hasArg Args [OptID.OPT_static] = false)
    (hShared : hasArg Args [OptID.OPT_shared] = false)
    (hNoStdlib : hasArg Args [OptID.OPT_nostdlib] = false)
    (hNoStartFiles : hasArg Args [OptID.OPT_nostartfiles] = false)
    (hNoDefaultLibs : hasArg Args [OptID.OPT_nodefaultlibs] = false)
    (hNoLibc : hasArg Args [OptID.OPT_nolibc] = false)
    (hStaticLibstdcxx : hasArg Args [OptID.OPT_static_libstdcxx] = false)
    (hLTO : TC.D.isUsingLTO = false)
    (hCXX : TC.D.CCCIsCXX = true)
    (hLinkCXX : TC.ShouldLinkCXXStdlib Args = true) :
    ConstructJob TC C JA (InputInfo.Filename Out) Inputs Args =
      some { Jobs := C.Jobs ++ [{
               Source := JA
               Executable := TC.GetLinkerPath
               Arguments :=
                 ["--sysroot=" ++ TC.D.SysRoot, "-o", Out, TC.GetFilePath "crt1.o"] ++
                 AddAllArgs Args [] OptID.OPT_L ++ AddAllArgs Args [] OptID.OPT_u ++
                 TC.AddFilePathLibArgs Args ++ TC.AddLinkerInputs Inputs Args JA ++
                 ["--push-state", "--as-needed", "-lc++", "-lm", "--pop-state"] ++
                 (TC.AddRunTimeLibs Args).1 ++ ["-lc"]
               Inputs := Inputs }]
             Diags := C.Diags ++ ((GetCXXStdlibType Args).2 ++ (TC.AddRunTimeLibs Args).2) } := by
  rw [ConstructJob_eq TC C JA Out Inputs Args (by simp [hLTO])]
  simp [linkArgs, linkDiags, headerArgs, startFileArgs, forwardedArgs, ltoArgs, defaultLibArgs,
    cxxGroupArgs, AddAllArgs, hSysRoot, hStrip, hStatic, hShared, hNoStdlib, hNoStartFiles,
    hNoDefaultLibs, hNoLibc, hStaticLibstdcxx, hLTO, hCXX, hLinkCXX]

/-- The example of claim C1: inputs `a.o`, output `a.out`, system root `/sdk`, no option set. -/
theorem C1_ConstructJob_cxx_link_vector_witness :
    (sdkToolChain.D.SysRoot ≠ "" ∧ sdkToolChain.D.isUsingLTO = false ∧
      sdkToolChain.D.CCCIsCXX = true ∧ sdkToolChain.ShouldLinkCXXStdlib [] = true) ∧
    ConstructJob sdkToolChain emptyCompilation { Kind := 0 } (InputInfo.Filename "a.out")
        [InputInfo.Filename "a.o"] [] =
      some { Jobs := [{
               Source := { Kind := 0 }
               Executable := "ld.lld"
               Arguments :=
                 ["--sysroot=/sdk", "-o", "a.out", "/sdk/lib/crt1.o", "-L/sdk/lib", "a.o",
                  "--push-state", "--as-needed", "-lc++", "-lm", "--pop-state",
                  "/res/lib/libclang_rt.builtins.a", "-lc"]
               Inputs := [InputInfo.Filename "a.o"] }]
             Diags := [] } :=
  ⟨⟨by decide, rfl, rfl, rfl⟩,
   C1_ConstructJob_cxx_link_vector sdkToolChain emptyCompilation { Kind := 0 } "a.out"
     [InputInfo.Filename "a.o"] [] (by decide) rfl rfl rfl rfl rfl rfl rfl rfl rfl rfl rfl⟩

/-! ## Links without the standard library -/

/-- Claim C2, refuted as stated: the link `-nostdlib a.o -lc` forwards the user's own `-lc`, so
the argument list of a nostdlib link contains the C library flag. -/
theorem C2_nostdlib_user_libc_counterexample :
    hasArg [flagArg OptID.OPT_nostdlib "-nostdlib", libcArg] [OptID.OPT_nostdlib] = true ∧
    ConstructJob sdkToolChain emptyCompilation { Kind := 0 } (InputInfo.Filename "a.out")
        [InputInfo.Filename "a.o", InputInfo.InputArg libcArg]
        [flagArg OptID.OPT_nostdlib "-nostdlib", libcArg] =
      some { Jobs := [{
               Source := { Kind := 0 }
               Executable := "ld.lld"
               Arguments := ["--sysroot=/sdk", "-o", "a.out", "-L/sdk/lib", "a.o", "-lc"]
               Inputs := [InputInfo.Filename "a.o", InputInfo.InputArg libcArg] }]
             Diags := [] } ∧
    "-lc" ∈ ["--sysroot=/sdk", "-o", "a.out", "-L/sdk/lib", "a.o", "-lc"] := by
  refine ⟨by decide, by rfl, by decide⟩

/-- Claim C2, amended. With nostdlib set the builder adds no start object and no library flag of
its own: the argument list is exactly the header, the forwarded `-L` and `-u` options, the
library-path args of the toolchain, the LTO options and the linker inputs. `-lc++` and `-lc`
therefore occur in it only where the output path or one of the forwarded segments carries
them. -/
theorem C2_nostdlib_only_forwarded (TC : ToolChain) (C : Compilation) (JA : JobAction)
    (Out : String) (Inputs : InputInfoList) (Args : ArgList)
    (hLTO : TC.D.isUsingLTO = true → Inputs ≠ [])
    (hNoStdlib : hasArg Args [OptID.OPT_nostdlib] = true) :
    ConstructJob TC C JA (InputInfo.Filename Out) Inputs Args =
      some { Jobs := C.Jobs ++ [{
               Source := JA
               Executable := TC.GetLinkerPath
               Arguments :=
                 headerArgs TC Out Args ++ AddAllArgs Args [] OptID.OPT_L ++
                 AddAllArgs Args [] OptID.OPT_u ++ TC.AddFilePathLibArgs Args ++
                 ltoArgs TC Out Inputs Args ++ TC.AddLinkerInputs Inputs Args JA
               Inputs := Inputs }]
             Diags := C.Diags } ∧
    ∀ x : String, x = "-lc++" ∨ x = "-lc" →
      x ∈ headerArgs TC Out Args ++ AddAllArgs Args [] OptID.OPT_L ++
          AddAllArgs Args [] OptID.OPT_u ++ TC.AddFilePathLibArgs Args ++
          ltoArgs TC Out Inputs Args ++ TC.AddLinkerInputs Inputs Args JA →
      x = Out ∨ x ∈ AddAllArgs Args [] OptID.OPT_L ∨ x ∈ AddAllArgs Args [] OptID.OPT_u ∨
        x ∈ TC.AddFilePathLibArgs Args ∨ x ∈ ltoArgs TC Out Inputs Args ∨
        x ∈ TC.AddLinkerInputs Inputs Args JA := by
  constructor
  · rw [ConstructJob_eq TC C JA Out Inputs Args hLTO]
    simp [linkArgs, linkDiags, startFileArgs, forwardedArgs, defaultLibArgs, AddAllArgs, hNoStdlib]
  · intro x hx hmem
    have hlen : x.length < 10 := by
      rcases hx with rfl | rfl <;> decide
    have hne : ∀ y : String, y = "-s" ∨ y = "-Bstatic" ∨ y = "-shared" ∨ y = "-o" → x ≠ y := by
      intro y hy
      rcases hx with rfl | rfl <;> rcases hy with rfl | rfl | rfl | rfl <;> decide
    have hHeader : x ∈ headerArgs TC Out Args → x = Out := by
      intro hmem
      unfold headerArgs at hmem
      simp only [List.mem_append, List.mem_cons, List.mem_singleton, List.not_mem_nil,
        or_false] at hmem
      rcases hmem with ((h1 | h2) | h3) | h4
      · split at h1
        · simp only [List.mem_singleton] at h1
          exact absurd h1.symm (sysroot_flag_ne _ _ hlen)
        · simp at h1
      · split at h2
        · simp only [List.mem_singleton] at h2
          exact absurd h2 (hne _ (Or.inl rfl))
        · simp at h2
      · split at h3
        · simp only [List.mem_singleton] at h3
          exact absurd h3 (hne _ (Or.inr (Or.inl rfl)))
        · split at h3
          · simp only [List.mem_singleton] at h3
            exact absurd h3 (hne _ (Or.inr (Or.inr (Or.inl rfl))))
          · simp at h3
      · rcases h4 with h4 | h4
        · exact absurd h4 (hne _ (Or.inr (Or.inr (Or.inr rfl))))
        · exact h4
    simp only [List.mem_append] at hmem
    tauto

/-- The amended claim C2 at the link `-nostdlib a.o -lc` under the system root `/sdk`. -/
theorem C2_nostdlib_only_forwarded_witness :
    ((sdkToolChain.D.isUsingLTO = true →
        [InputInfo.Filename "a.o", InputInfo.InputArg libcArg] ≠ []) ∧
      hasArg [flagArg OptID.OPT_nostdlib "-nostdlib", libcArg] [OptID.OPT_nostdlib] = true) ∧
    ConstructJob sdkToolChain emptyCompilation { Kind := 0 } (InputInfo.Filename "a.out")
        [InputInfo.Filename "a.o", InputInfo.InputArg libcArg]
        [flagArg OptID.OPT_nostdlib "-nostdlib", libcArg] =
      some { Jobs := [{
               Source := { Kind := 0 }
               Executable := "ld.lld"
               Arguments := ["--sysroot=/sdk", "-o", "a.out", "-L/sdk/lib", "a.o", "-lc"]
               Inputs := [InputInfo.Filename "a.o", InputInfo.InputArg libcArg] }]
             Diags := [] } :=
  ⟨⟨by decide, by decide⟩,
   (C2_nostdlib_only_forwarded sdkToolChain emptyCompilation { Kind := 0 } "a.out"
     [InputInfo.Filename "a.o", InputInfo.InputArg libcArg]
     [flagArg OptID.OPT_nostdlib "-nostdlib", libcArg] (by decide) (by decide)).1⟩

/-! ## Static links in C++ mode -/

/-- Claim C3, refuted as stated: with `-static -static-libstdc++` the C++ standard library flag
is followed by `-lm` and preceded by `--as-needed`; no `-Bstatic` `-lc++` `-Bdynamic` run occurs
in the argument list. -/
theorem C3_static_and_static_libstdcxx_counterexample :
    ConstructJob sdkToolChain emptyCompilation { Kind := 0 } (InputInfo.Filename "a.out")
        [InputInfo.Filename "a.o"]
        [flagArg OptID.OPT_static "-static",
         flagArg OptID.OPT_static_libstdcxx "-static-libstdc++"] =
      some { Jobs := [{
               Source := { Kind := 0 }
               Executable := "ld.lld"
               Arguments :=
                 ["--sysroot=/sdk", "-Bstatic", "-o", "a.out", "/sdk/lib/crt1.o", "-L/sdk/lib",
                  "a.o", "-Bdynamic", "--push-state", "--as-needed", "-lc++", "-lm",
                  "--pop-state", "/res/lib/libclang_rt.builtins.a", "-lc"]
               Inputs := [InputInfo.Filename "a.o"] }]
             Diags := [] } ∧
    ¬ (["-Bstatic", "-lc++", "-Bdynamic"] <:+:
        ["--sysroot=/sdk", "-Bstatic", "-o", "a.out", "/sdk/lib/crt1.o", "-L/sdk/lib",
         "a.o", "-Bdynamic", "--push-state", "--as-needed", "-lc++", "-lm",
         "--pop-state", "/res/lib/libclang_rt.builtins.a", "-lc"]) := by
  refine ⟨by rfl, by decide⟩

/-- Claim C3, amended. With static and static-libstdc++ both set, in C++ mode with the C++
standard library linked and the default libraries not suppressed, the builder emits `-Bdynamic`
right after the linker inputs and before `--push-state`, and the scope is exactly
`--push-state`, `--as-needed`, `-lc++`, `-lm`, `--pop-state`: the C++ standard library flag is
not bracketed by `-Bstatic` and `-Bdynamic`, which the builder emits only when static is not
set. -/
theorem C3_static_and_static_libstdcxx_group (TC : ToolChain) (C : Compilation) (JA : JobAction)
    (Out : String) (Inputs : InputInfoList) (Args : ArgList)
    (hLTO : TC.D.isUsingLTO = true → Inputs ≠ [])
    (hStatic : hasArg Args [OptID.OPT_static] = true)
    (hStaticLibstdcxx : hasArg Args [OptID.OPT_static_libstdcxx] = true)
    (hNoStdlib : hasArg Args [OptID.OPT_nostdlib] = false)
    (hNoDefaultLibs : hasArg Args [OptID.OPT_nodefaultlibs] = false)
    (hCXX : TC.D.CCCIsCXX = true)
    (hLinkCXX : TC.ShouldLinkCXXStdlib Args = true) :
    ConstructJob TC C JA (InputInfo.Filename Out) Inputs Args =
      some { Jobs := C.Jobs ++ [{
               Source := JA
               Executable := TC.GetLinkerPath
               Arguments :=
                 headerArgs TC Out Args ++ startFileArgs TC Args ++ forwardedArgs Args ++
                 TC.AddFilePathLibArgs Args ++ ltoArgs TC Out Inputs Args ++
                 TC.AddLinkerInputs Inputs Args JA ++
                 ["-Bdynamic", "--push-state", "--as-needed", "-lc++", "-lm", "--pop-state"] ++
                 (TC.AddRunTimeLibs Args).1 ++
                 (if hasArg Args [OptID.OPT_nolibc] = false then ["-lc"] else [])
               Inputs := Inputs }]
             Diags := C.Diags ++ ((GetCXXStdlibType Args).2 ++ (TC.AddRunTimeLibs Args).2) } := by
  rw [ConstructJob_eq TC C JA Out Inputs Args hLTO]
  simp [linkArgs, linkDiags, defaultLibArgs, cxxGroupArgs, hStatic, hStaticLibstdcxx, hNoStdlib,
    hNoDefaultLibs, hCXX, hLinkCXX]

/-- The amended claim C3 at the link `-static -static-libstdc++ a.o` under the system root
`/sdk`. -/
theorem C3_static_and_static_libstdcxx_group_witness :
    ((sdkToolChain.D.isUsingLTO = true → [InputInfo.Filename "a.o"] ≠ []) ∧
      hasArg [flagArg OptID.OPT_static "-static",
              flagArg OptID.OPT_static_libstdcxx "-static-libstdc++"] [OptID.OPT_static] = true ∧
      hasArg [flagArg OptID.OPT_static "-static",
              flagArg OptID.OPT_static_libstdcxx "-static-libstdc++"]
        [OptID.OPT_static_libstdcxx] = true) ∧
    ConstructJob sdkToolChain emptyCompilation { Kind := 0 } (InputInfo.Filename "a.out")
        [InputInfo.Filename "a.o"]
        [flagArg OptID.OPT_static "-static",
         flagArg OptID.OPT_static_libstdcxx "-static-libstdc++"] =
      some { Jobs := [{
               Source := { Kind := 0 }
               Executable := "ld.lld"
               Arguments :=
                 ["--sysroot=/sdk", "-Bstatic", "-o", "a.out", "/sdk/lib/crt1.o", "-L/sdk/lib",
                  "a.o", "-Bdynamic", "--push-state", "--as-needed", "-lc++", "-lm",
                  "--pop-state", "/res/lib/libclang_rt.builtins.a", "-lc"]
               Inputs := [InputInfo.Filename "a.o"] }]
             Diags := [] } :=
  ⟨⟨by decide, by decide, by decide⟩,
   C3_static_and_static_libstdcxx_group sdkToolChain emptyCompilation { Kind := 0 } "a.out"
     [InputInfo.Filename "a.o"]
     [flagArg OptID.OPT_static "-static", flagArg OptID.OPT_static_libstdcxx "-static-libstdc++"]
     (by decide) (by decide) (by decide) (by decide) (by decide) rfl rfl⟩

/-- Claim C4, refuted as stated: in the static C++ link `-static a.o` the runtime-library args
are followed by `-lc` at once; no `-Bstatic` comes after the `-Bdynamic` switch, and the
trailing `-lc` is not preceded by one. -/
theorem C4_static_mode_not_restored_counterexample :
    ConstructJob sdkToolChain emptyCompilation { Kind := 0 } (InputInfo.Filename "a.out")
        [InputInfo.Filename "a.o"] [flagArg OptID.OPT_static "-static"] =
      some { Jobs := [{
               Source := { Kind := 0 }
               Executable := "ld.lld"
               Arguments :=
                 ["--sysroot=/sdk", "-Bstatic", "-o", "a.out", "/sdk/lib/crt1.o", "-L/sdk/lib",
                  "a.o", "-Bdynamic", "--push-state", "--as-needed", "-lc++", "-lm",
                  "--pop-state", "/res/lib/libclang_rt.builtins.a", "-lc"]
               Inputs := [InputInfo.Filename "a.o"] }]
             Diags := [] } ∧
    "-Bstatic" ∉
      (["--sysroot=/sdk", "-Bstatic", "-o", "a.out", "/sdk/lib/crt1.o", "-L/sdk/lib",
        "a.o", "-Bdynamic", "--push-state", "--as-needed", "-lc++", "-lm",
        "--pop-state", "/res/lib/libclang_rt.builtins.a", "-lc"].dropWhile
          (fun x => x != "-Bdynamic")) ∧
    ¬ (["-Bstatic", "-lc"] <:+
        ["--sysroot=/sdk", "-Bstatic", "-o", "a.out", "/sdk/lib/crt1.o", "-L/sdk/lib",
         "a.o", "-Bdynamic", "--push-state", "--as-needed", "-lc++", "-lm",
         "--pop-state", "/res/lib/libclang_rt.builtins.a", "-lc"]) := by
  refine ⟨by rfl, by decide, by decide⟩

/-- Claim C4, amended. With static set, in C++ mode with the C++ standard library linked and none
of nostdlib, nodefaultlibs and nolibc set, the builder emits `-Bdynamic` right after the linker
inputs and before the C++ group and the runtime-library args, and emits nothing between the
runtime-library args and the trailing `-lc`: the static mode is not switched back. -/
theorem C4_static_dynamic_switch (TC : ToolChain) (C : Compilation) (JA : JobAction)
    (Out : String) (Inputs : InputInfoList) (Args : ArgList)
    (hLTO : TC.D.isUsingLTO = true → Inputs ≠ [])
    (hStatic : hasArg Args [OptID.OPT_static] = true)
    (hNoStdlib : hasArg Args [OptID.OPT_nostdlib] = false)
    (hNoDefaultLibs : hasArg Args [OptID.OPT_nodefaultlibs] = false)
    (hNoLibc : hasArg Args [OptID.OPT_nolibc] = false)
    (hCXX : TC.D.CCCIsCXX = true)
    (hLinkCXX : TC.ShouldLinkCXXStdlib Args = true) :
    ConstructJob TC C JA (InputInfo.Filename Out) Inputs Args =
      some { Jobs := C.Jobs ++ [{
               Source := JA
               Executable := TC.GetLinkerPath
               Arguments :=
                 headerArgs TC Out Args ++ startFileArgs TC Args ++ forwardedArgs Args ++
                 TC.AddFilePathLibArgs Args ++ ltoArgs TC Out Inputs Args ++
                 TC.AddLinkerInputs Inputs Args JA ++
                 ["-Bdynamic"] ++
                 ["--push-state", "--as-needed", "-lc++", "-lm", "--pop-state"] ++
                 (TC.AddRunTimeLibs Args).1 ++ ["-lc"]
               Inputs := Inputs }]
             Diags := C.Diags ++ ((GetCXXStdlibType Args).2 ++ (TC.AddRunTimeLibs Args).2) } := by
  rw [ConstructJob_eq TC C JA Out Inputs Args hLTO]
  simp [linkArgs, linkDiags, defaultLibArgs, cxxGroupArgs, hStatic, hNoStdlib, hNoDefaultLibs,
    hNoLibc, hCXX, hLinkCXX]

/-- The amended claim C4 at the link `-static a.o` under the system root `/sdk`. -/
theorem C4_static_dynamic_switch_witness :
    ((sdkToolChain.D.isUsingLTO = true → [InputInfo.Filename "a.o"] ≠ []) ∧
      hasArg [flagArg OptID.OPT_static "-static"] [OptID.OPT_static] = true ∧
      hasArg [flagArg OptID.OPT_static "-static"] [OptID.OPT_nolibc] = false) ∧
    ConstructJob sdkToolChain emptyCompilation { Kind := 0 } (InputInfo.Filename "a.out")
        [InputInfo.Filename "a.o"] [flagArg OptID.OPT_static "-static"] =
      some { Jobs := [{
               Source := { Kind := 0 }
               Executable := "ld.lld"
               Arguments :=
                 ["--sysroot=/sdk", "-Bstatic", "-o", "a.out", "/sdk/lib/crt1.o", "-L/sdk/lib",
                  "a.o", "-Bdynamic", "--push-state", "--as-needed", "-lc++", "-lm",
                  "--pop-state", "/res/lib/libclang_rt.builtins.a", "-lc"]
               Inputs := [InputInfo.Filename "a.o"] }]
             Diags := [] } :=
  ⟨⟨by decide, by decide, by decide⟩,
   C4_static_dynamic_switch sdkToolChain emptyCompilation { Kind := 0 } "a.out"
     [InputInfo.Filename "a.o"] [flagArg OptID.OPT_static "-static"]
     (by decide) (by decide) (by decide) (by decide) (by decide) rfl rfl⟩

/-! ## The header, the start object and the C library flag -/

/-- Claim C5. Whenever the builder returns (LTO inactive, or at least one input), the argument
list starts with the header: `--sysroot=S` first exactly when the system root `S` is not empty,
then `-s` exactly when strip is set, then `-Bstatic` when static is set (also when shared is set
too), `-shared` when shared is set and static is not, and no mode flag otherwise, then `-o`
immediately followed by the output path. -/
theorem C5_ConstructJob_header (TC : ToolChain) (C : Compilation) (JA : JobAction)
    (Out : String) (Inputs : InputInfoList) (Args : ArgList)
    (hLTO : TC.D.isUsingLTO = true → Inputs ≠ []) :
    ∃ Rest : ArgStringList,
      ConstructJob TC C JA (InputInfo.Filename Out) Inputs Args =
        some { Jobs := C.Jobs ++ [{
                 Source := JA
                 Executable := TC.GetLinkerPath
                 Arguments :=
                   (if TC.D.SysRoot ≠ "" then ["--sysroot=" ++ TC.D.SysRoot] else []) ++
                   (if hasArg Args [OptID.OPT_s] = true then ["-s"] else []) ++
                   (if hasArg Args [OptID.OPT_static] = true then ["-Bstatic"]
                    else if hasArg Args [OptID.OPT_shared] = true then ["-shared"] else []) ++
                   ["-o", Out] ++ Rest
                 Inputs := Inputs }]
               Diags := C.Diags ++ linkDiags TC Args } := by
  refine ⟨startFileArgs TC Args ++ forwardedArgs Args ++ TC.AddFilePathLibArgs Args ++
    ltoArgs TC Out Inputs Args ++ TC.AddLinkerInputs Inputs Args JA ++ defaultLibArgs TC Args, ?_⟩
  rw [ConstructJob_eq TC C JA Out Inputs Args hLTO]
  simp [linkArgs, headerArgs]

/-- Claim C5 at the link `-s -static -shared a.o` under the system root `/sdk`: the header is
`--sysroot=/sdk`, `-s`, `-Bstatic`, `-o`, `a.out`. -/
theorem C5_ConstructJob_header_witness :
    (sdkToolChain.D.isUsingLTO = true → [InputInfo.Filename "a.o"] ≠ []) ∧
    ∃ Rest : ArgStringList,
      ConstructJob sdkToolChain emptyCompilation { Kind := 0 } (InputInfo.Filename "a.out")
          [InputInfo.Filename "a.o"]
          [flagArg OptID.OPT_s "-s", flagArg OptID.OPT_static "-static",
           flagArg OptID.OPT_shared "-shared"] =
        some { Jobs := [{
                 Source := { Kind := 0 }
                 Executable := "ld.lld"
                 Arguments := ["--sysroot=/sdk", "-s", "-Bstatic", "-o", "a.out"] ++ Rest
                 Inputs := [InputInfo.Filename "a.o"] }]
               Diags := [] } :=
  ⟨by decide,
   C5_ConstructJob_header sdkToolChain emptyCompilation { Kind := 0 } "a.out"
     [InputInfo.Filename "a.o"]
     [flagArg OptID.OPT_s "-s", flagArg OptID.OPT_static "-static",
      flagArg OptID.OPT_shared "-shared"] (by decide)⟩

/-- Claim C6. Whenever the builder returns, the argument right after the output path is the C
runtime start object, the file-search result for `crt1.o`, exactly when none of nostdlib,
nostartfiles and shared is set; otherwise the output path is followed at once by what the later
steps emit. In particular no start object is emitted when a shared object is built. -/
theorem C6_ConstructJob_start_object (TC : ToolChain) (C : Compilation) (JA : JobAction)
    (Out : String) (Inputs : InputInfoList) (Args : ArgList)
    (hLTO : TC.D.isUsingLTO = true → Inputs ≠ []) :
    ConstructJob TC C JA (InputInfo.Filename Out) Inputs Args =
      some { Jobs := C.Jobs ++ [{
               Source := JA
               Executable := TC.GetLinkerPath
               Arguments :=
                 (if TC.D.SysRoot ≠ "" then ["--sysroot=" ++ TC.D.SysRoot] else []) ++
                 (if hasArg Args [OptID.OPT_s] = true then ["-s"] else []) ++
                 (if hasArg Args [OptID.OPT_static] = true then ["-Bstatic"]
                  else if hasArg Args [OptID.OPT_shared] = true then ["-shared"] else []) ++
                 ["-o", Out] ++
                 (if hasArg Args [OptID.OPT_nostdlib] = false ∧
                      hasArg Args [OptID.OPT_nostartfiles] = false ∧
                      hasArg Args [OptID.OPT_shared] = false
                  then [TC.GetFilePath "crt1.o"] else []) ++
                 (AddAllArgs Args [] OptID.OPT_L ++ AddAllArgs Args [] OptID.OPT_u ++
                  TC.AddFilePathLibArgs Args ++ ltoArgs TC Out Inputs Args ++
                  TC.AddLinkerInputs Inputs Args JA ++ defaultLibArgs TC Args)
               Inputs := Inputs }]
             Diags := C.Diags ++ linkDiags TC Args } ∧
    (hasArg Args [OptID.OPT_shared] = true →
      ConstructJob TC C JA (InputInfo.Filename Out) Inputs Args =
        some { Jobs := C.Jobs ++ [{
                 Source := JA
                 Executable := TC.GetLinkerPath
                 Arguments :=
                   headerArgs TC Out Args ++
                   (AddAllArgs Args [] OptID.OPT_L ++ AddAllArgs Args [] OptID.OPT_u ++
                    TC.AddFilePathLibArgs Args ++ ltoArgs TC Out Inputs Args ++
                    TC.AddLinkerInputs Inputs Args JA ++ defaultLibArgs TC Args)
                 Inputs := Inputs }]
               Diags := C.Diags ++ linkDiags TC Args }) := by
  constructor
  · rw [ConstructJob_eq TC C JA Out Inputs Args hLTO]
    simp [linkArgs, headerArgs, startFileArgs, forwardedArgs, AddAllArgs]
  · intro hShared
    rw [ConstructJob_eq TC C JA Out Inputs Args hLTO]
    simp [linkArgs, startFileArgs, forwardedArgs, AddAllArgs, hShared]

/-- Claim C6 at two links under the system root `/sdk`: `a.o` alone has the start object right
after `a.out`, and `-shared a.o` has none. -/
theorem C6_ConstructJob_start_object_witness :
    (sdkToolChain.D.isUsingLTO = true → [InputInfo.Filename "a.o"] ≠ []) ∧
    ConstructJob sdkToolChain emptyCompilation { Kind := 0 } (InputInfo.Filename "a.out")
        [InputInfo.Filename "a.o"] [flagArg OptID.OPT_nodefaultlibs "-nodefaultlibs"] =
      some { Jobs := [{
               Source := { Kind := 0 }
               Executable := "ld.lld"
               Arguments := ["--sysroot=/sdk", "-o", "a.out", "/sdk/lib/crt1.o", "-L/sdk/lib",
                             "a.o"]
               Inputs := [InputInfo.Filename "a.o"] }]
             Diags := [] } ∧
    ConstructJob sdkToolChain emptyCompilation { Kind := 0 } (InputInfo.Filename "a.out")
        [InputInfo.Filename "a.o"]
        [flagArg OptID.OPT_shared "-shared", flagArg OptID.OPT_nodefaultlibs "-nodefaultlibs"] =
      some { Jobs := [{
               Source := { Kind := 0 }
               Executable := "ld.lld"
               Arguments := ["--sysroot=/sdk", "-shared", "-o", "a.out", "-L/sdk/lib", "a.o"]
               Inputs := [InputInfo.Filename "a.o"] }]
             Diags := [] } :=
  ⟨by decide,
   (C6_ConstructJob_start_object sdkToolChain emptyCompilation { Kind := 0 } "a.out"
     [InputInfo.Filename "a.o"] [flagArg OptID.OPT_nodefaultlibs "-nodefaultlibs"]
     (by decide)).1,
   (C6_ConstructJob_start_object sdkToolChain emptyCompilation { Kind := 0 } "a.out"
     [InputInfo.Filename "a.o"]
     [flagArg OptID.OPT_shared "-shared", flagArg OptID.OPT_nodefaultlibs "-nodefaultlibs"]
     (by decide)).2 (by decide)⟩

/-- Claim C7, refuted as stated: the link `-nostdlib a.o -lc -lm` forwards the user's own `-lc`,
which is then present in the argument list without being its last argument. -/
theorem C7_user_libc_not_last_counterexample :
    ConstructJob sdkToolChain emptyCompilation { Kind := 0 } (InputInfo.Filename "a.out")
        [InputInfo.Filename "a.o", InputInfo.InputArg libcArg, InputInfo.InputArg libmArg]
        [flagArg OptID.OPT_nostdlib "-nostdlib", libcArg, libmArg] =
      some { Jobs := [{
               Source := { Kind := 0 }
               Executable := "ld.lld"
               Arguments := ["--sysroot=/sdk", "-o", "a.out", "-L/sdk/lib", "a.o", "-lc", "-lm"]
               Inputs := [InputInfo.Filename "a.o", InputInfo.InputArg libcArg,
                          InputInfo.InputArg libmArg] }]
             Diags := [] } ∧
    "-lc" ∈ ["--sysroot=/sdk", "-o", "a.out", "-L/sdk/lib", "a.o", "-lc", "-lm"] ∧
    ["--sysroot=/sdk", "-o", "a.out", "-L/sdk/lib", "a.o", "-lc", "-lm"].getLast? ≠
      some "-lc" := by
  refine ⟨by rfl, by decide, by decide⟩

/-- Claim C7, amended. Whenever the builder returns, it appends `-lc` exactly when none of
nostdlib, nodefaultlibs and nolibc is set, after everything else it emits (the C++ group and the
runtime-library args included), so that the argument list then ends with `-lc`. A `-lc` among
the user's own options or inputs is forwarded where it stands. -/
theorem C7_ConstructJob_libc_last (TC : ToolChain) (C : Compilation) (JA : JobAction)
    (Out : String) (Inputs : InputInfoList) (Args : ArgList)
    (hLTO : TC.D.isUsingLTO = true → Inputs ≠ []) :
    ConstructJob TC C JA (InputInfo.Filename Out) Inputs Args =
      some { Jobs := C.Jobs ++ [{
               Source := JA
               Executable := TC.GetLinkerPath
               Arguments :=
                 (headerArgs TC Out Args ++ startFileArgs TC Args ++ forwardedArgs Args ++
                  TC.AddFilePathLibArgs Args ++ ltoArgs TC Out Inputs Args ++
                  TC.AddLinkerInputs Inputs Args JA ++
                  (if hasArg Args [OptID.OPT_nostdlib] = false ∧
                       hasArg Args [OptID.OPT_nodefaultlibs] = false
                   then (if hasArg Args [OptID.OPT_static] = true then ["-Bdynamic"] else []) ++
                        cxxGroupArgs TC Args ++ (TC.AddRunTimeLibs Args).1
                   else [])) ++
                 (if hasArg Args [OptID.OPT_nostdlib] = false ∧
                      hasArg Args [OptID.OPT_nodefaultlibs] = false ∧
                      hasArg Args [OptID.OPT_nolibc] = false
                  then ["-lc"] else [])
               Inputs := Inputs }]
             Diags := C.Diags ++ linkDiags TC Args } ∧
    (hasArg Args [OptID.OPT_nostdlib] = false → hasArg Args [OptID.OPT_nodefaultlibs] = false →
      hasArg Args [OptID.OPT_nolibc] = false →
      ∃ C1 : Compilation, ∃ Cmd : Command,
        ConstructJob TC C JA (InputInfo.Filename Out) Inputs Args = some C1 ∧
        C1.Jobs.getLast? = some Cmd ∧ Cmd.Arguments.getLast? = some "-lc") := by
  constructor
  · rw [ConstructJob_eq TC C JA Out Inputs Args hLTO]
    by_cases h1 : hasArg Args [OptID.OPT_nostdlib] = false <;>
      by_cases h2 : hasArg Args [OptID.OPT_nodefaultlibs] = false <;>
      simp [linkArgs, defaultLibArgs, h1, h2]
  · intro h1 h2 h3
    refine ⟨_, { Source := JA, Executable := TC.GetLinkerPath,
                 Arguments := linkArgs TC JA Out Inputs Args, Inputs := Inputs },
      ConstructJob_eq TC C JA Out Inputs Args hLTO, ?_, ?_⟩
    · simp
    · simp [linkArgs, defaultLibArgs, h1, h2, h3]

/-- The amended claim C7 at the link `a.o -lm` under the system root `/sdk`: the builder appends
`-lc`, and the argument list ends with it. -/
theorem C7_ConstructJob_libc_last_witness :
    ((sdkToolChain.D.isUsingLTO = true →
        [InputInfo.Filename "a.o", InputInfo.InputArg libmArg] ≠ []) ∧
      hasArg [libmArg] [OptID.OPT_nostdlib] = false ∧
      hasArg [libmArg] [OptID.OPT_nodefaultlibs] = false ∧
      hasArg [libmArg] [OptID.OPT_nolibc] = false) ∧
    ∃ C1 : Compilation, ∃ Cmd : Command,
      ConstructJob sdkToolChain emptyCompilation { Kind := 0 } (InputInfo.Filename "a.out")
        [InputInfo.Filename "a.o", InputInfo.InputArg libmArg] [libmArg] = some C1 ∧
      C1.Jobs.getLast? = some Cmd ∧ Cmd.Arguments.getLast? = some "-lc" :=
  ⟨⟨by decide, by decide, by decide, by decide⟩,
   (C7_ConstructJob_libc_last sdkToolChain emptyCompilation { Kind := 0 } "a.out"
     [InputInfo.Filename "a.o", InputInfo.InputArg libmArg] [libmArg] (by decide)).2
     (by decide) (by decide) (by decide)⟩

/-! ## Unsupported runtime and C++ standard libraries -/

/-- Claim C8, refuted as stated: for the link `-rtlib=libgcc a.o` the diagnostic
`err_drv_invalid_rtlib_name` is reported, and `ConstructJob` adds the linker command to the
compilation all the same. -/
theorem C8_invalid_rtlib_command_added_counterexample :
    GetRuntimeLibType [rtlibLibgccArg] =
      (RuntimeLibType.RLT_CompilerRT,
       [{ ID := DiagID.err_drv_invalid_rtlib_name, Argument := "-rtlib=libgcc" }]) ∧
    ConstructJob sdkToolChain emptyCompilation { Kind := 0 } (InputInfo.Filename "a.out")
        [InputInfo.Filename "a.o"] [rtlibLibgccArg] =
      some { Jobs := [{
               Source := { Kind := 0 }
               Executable := "ld.lld"
               Arguments :=
                 ["--sysroot=/sdk", "-o", "a.out", "/sdk/lib/crt1.o", "-L/sdk/lib", "a.o",
                  "--push-state", "--as-needed", "-lc++", "-lm", "--pop-state",
                  "/res/lib/libclang_rt.builtins.a", "-lc"]
               Inputs := [InputInfo.Filename "a.o"] }]
             Diags := [{ ID := DiagID.err_drv_invalid_rtlib_name,
                         Argument := "-rtlib=libgcc" }] } := by
  refine ⟨by rfl, by rfl⟩

/-- Claim C8, amended. When the last `-rtlib=` option of a link names a runtime library other
than `compiler-rt`, `GetRuntimeLibType` reports `err_drv_invalid_rtlib_name` once, with the
spelling of that option, and returns compiler-rt all the same; `ConstructJob` does not stop on
it: whenever it returns, it has added the linker command to the compilation. -/
theorem C8_invalid_rtlib_reported_and_command_added (TC : ToolChain) (C : Compilation)
    (JA : JobAction) (Out : String) (Inputs : InputInfoList) (Args : ArgList) (A : Arg)
    (hLTO : TC.D.isUsingLTO = true → Inputs ≠ [])
    (hLast : getLastArg Args [OptID.OPT_rtlib_EQ] = some A)
    (hValue : A.Value ≠ "compiler-rt") :
    GetRuntimeLibType Args =
      (RuntimeLibType.RLT_CompilerRT,
       [{ ID := DiagID.err_drv_invalid_rtlib_name, Argument := A.AsString }]) ∧
    ConstructJob TC C JA (InputInfo.Filename Out) Inputs Args =
      some { Jobs := C.Jobs ++ [{
               Source := JA
               Executable := TC.GetLinkerPath
               Arguments := linkArgs TC JA Out Inputs Args
               Inputs := Inputs }]
             Diags := C.Diags ++ linkDiags TC Args } := by
  constructor
  · simp [GetRuntimeLibType, hLast, hValue]
  · exact ConstructJob_eq TC C JA Out Inputs Args hLTO

/-- The amended claim C8 at the link `-rtlib=libgcc a.o` under the system root `/sdk`. -/
theorem C8_invalid_rtlib_reported_and_command_added_witness :
    ((sdkToolChain.D.isUsingLTO = true → [InputInfo.Filename "a.o"] ≠ []) ∧
      getLastArg [rtlibLibgccArg] [OptID.OPT_rtlib_EQ] = some rtlibLibgccArg ∧
      rtlibLibgccArg.Value ≠ "compiler-rt") ∧
    GetRuntimeLibType [rtlibLibgccArg] =
      (RuntimeLibType.RLT_CompilerRT,
       [{ ID := DiagID.err_drv_invalid_rtlib_name, Argument := "-rtlib=libgcc" }]) ∧
    ConstructJob sdkToolChain emptyCompilation { Kind := 0 } (InputInfo.Filename "a.out")
        [InputInfo.Filename "a.o"] [rtlibLibgccArg] =
      some { Jobs := [{
               Source := { Kind := 0 }
               Executable := "ld.lld"
               Arguments :=
                 ["--sysroot=/sdk", "-o", "a.out", "/sdk/lib/crt1.o", "-L/sdk/lib", "a.o",
                  "--push-state", "--as-needed", "-lc++", "-lm", "--pop-state",
                  "/res/lib/libclang_rt.builtins.a", "-lc"]
               Inputs := [InputInfo.Filename "a.o"] }]
             Diags := [{ ID := DiagID.err_drv_invalid_rtlib_name,
                         Argument := "-rtlib=libgcc" }] } :=
  ⟨⟨by decide, by decide, by decide⟩,
   C8_invalid_rtlib_reported_and_command_added sdkToolChain emptyCompilation { Kind := 0 }
     "a.out" [InputInfo.Filename "a.o"] [rtlibLibgccArg] rtlibLibgccArg
     (by decide) (by decide) (by decide)⟩

/-- Claim C9. The request for a C++ standard library is the last `-stdlib=` option of the list.
When its value is not `libc++`, `GetCXXStdlibType` reports `err_drv_invalid_stdlib_name` with the
spelling of that option; when there is no such request (no `-stdlib=` option, or the last one
names `libc++`), it reports nothing and returns the default `GetDefaultCXXStdlibType`, which is
libc++. -/
theorem C9_GetCXXStdlibType_request (Args : ArgList) :
    (∀ A : Arg, getLastArg Args [OptID.OPT_stdlib_EQ] = some A → A.Value ≠ "libc++" →
      GetCXXStdlibType Args =
        (CXXStdlibType.CST_Libcxx,
         [{ ID := DiagID.err_drv_invalid_stdlib_name, Argument := A.AsString }])) ∧
    ((¬ ∃ A : Arg, getLastArg Args [OptID.OPT_stdlib_EQ] = some A ∧ A.Value ≠ "libc++") →
      GetCXXStdlibType Args = (GetDefaultCXXStdlibType, []) ∧
      GetDefaultCXXStdlibType = CXXStdlibType.CST_Libcxx) := by
  constructor
  · intro A hLast hValue
    simp [GetCXXStdlibType, hLast, hValue]
  · intro hNone
    refine ⟨?_, rfl⟩
    unfold GetCXXStdlibType GetDefaultCXXStdlibType
    cases hLast : getLastArg Args [OptID.OPT_stdlib_EQ] with
    | none => rfl
    | some A =>
      have hValue : A.Value = "libc++" := by
        by_contra hne
        exact hNone ⟨A, hLast, hne⟩
      simp [hValue]

/-- Claim C9 at three option lists: `-stdlib=libstdc++` is reported with its spelling, and
neither the empty list nor `-stdlib=libc++` is. -/
theorem C9_GetCXXStdlibType_request_witness :
    (getLastArg [stdlibLibstdcxxArg] [OptID.OPT_stdlib_EQ] = some stdlibLibstdcxxArg ∧
      stdlibLibstdcxxArg.Value ≠ "libc++" ∧
      GetCXXStdlibType [stdlibLibstdcxxArg] =
        (CXXStdlibType.CST_Libcxx,
         [{ ID := DiagID.err_drv_invalid_stdlib_name, Argument := "-stdlib=libstdc++" }])) ∧
    GetCXXStdlibType [] = (CXXStdlibType.CST_Libcxx, []) ∧
    GetCXXStdlibType [stdlibLibstdcxxArg, stdlibLibcxxArg] = (CXXStdlibType.CST_Libcxx, []) :=
  ⟨⟨by decide, by decide,
    (C9_GetCXXStdlibType_request [stdlibLibstdcxxArg]).1 stdlibLibstdcxxArg
      (by decide) (by decide)⟩,
   ((C9_GetCXXStdlibType_request []).2 (by decide)).1,
   ((C9_GetCXXStdlibType_request [stdlibLibstdcxxArg, stdlibLibcxxArg]).2 (by
      rintro ⟨A, hLast, hValue⟩
      have hA : A = stdlibLibcxxArg := by
        have h : getLastArg [stdlibLibstdcxxArg, stdlibLibcxxArg] [OptID.OPT_stdlib_EQ] =
            some stdlibLibcxxArg := by decide
        rw [h] at hLast
        exact (Option.some.inj hLast).symm
      rw [hA] at hValue
      exact hValue (by decide))).1⟩

/-! ## The C++ standard library include path -/

/-- Claim C10, refuted as stated: under the system root `/sdk`, `-nostdinc` alone does not
suppress the C++ include path, and `-nostdlibinc` alone, with neither `-nostdinc` nor
`-nostdinc++` set, does suppress it. -/
theorem C10_nostdinc_nostdlibinc_counterexample :
    (hasArg [flagArg OptID.OPT_nostdinc "-nostdinc"] [OptID.OPT_nostdinc] = true ∧
      AddClangCXXStdlibIncludeArgs sdkToolChain [flagArg OptID.OPT_nostdinc "-nostdinc"]
          ["-cc1"] =
        (some ["-cc1", "-internal-isystem", "/sdk/include/c++/v1"], [])) ∧
    (hasArg [flagArg OptID.OPT_nostdlibinc "-nostdlibinc"] [OptID.OPT_nostdinc] = false ∧
      hasArg [flagArg OptID.OPT_nostdlibinc "-nostdlibinc"] [OptID.OPT_nostdincxx] = false ∧
      AddClangCXXStdlibIncludeArgs sdkToolChain [flagArg OptID.OPT_nostdlibinc "-nostdlibinc"]
          ["-cc1"] =
        (some ["-cc1"], [])) := by
  refine ⟨⟨by decide, by rfl⟩, by decide, by decide, by rfl⟩

/-- Claim C10, amended. `AddClangCXXStdlibIncludeArgs` appends nothing when nostdlibinc or
nostdinc++ is set, and otherwise, whether or not nostdinc is set, appends exactly the one system
include of the path `<sysroot>/include/c++/v1`; the arguments accumulated before are left as
they are. -/
theorem C10_AddClangCXXStdlibIncludeArgs_guard (TC : ToolChain) (DriverArgs : ArgList)
    (CC1Args : ArgStringList) :
    (hasArg DriverArgs [OptID.OPT_nostdlibinc] = true ∨
        hasArg DriverArgs [OptID.OPT_nostdincxx] = true →
      AddClangCXXStdlibIncludeArgs TC DriverArgs CC1Args = (some CC1Args, [])) ∧
    (hasArg DriverArgs [OptID.OPT_nostdlibinc] = false →
        hasArg DriverArgs [OptID.OPT_nostdincxx] = false →
      AddClangCXXStdlibIncludeArgs TC DriverArgs CC1Args =
        (some (CC1Args ++
            TC.addSystemInclude (TC.path_append TC.D.SysRoot ["include", "c++", "v1"])),
         (GetCXXStdlibType DriverArgs).2)) := by
  constructor
  · intro h
    unfold AddClangCXXStdlibIncludeArgs
    rcases h with h | h <;> simp [h]
  · intro h1 h2
    unfold AddClangCXXStdlibIncludeArgs
    simp [h1, h2, GetCXXStdlibType]

/-- The amended claim C10 under the system root `/sdk`: `-nostdinc++` appends nothing, and
`-nostdinc` appends the system include of `/sdk/include/c++/v1`. -/
theorem C10_AddClangCXXStdlibIncludeArgs_guard_witness :
    (hasArg [flagArg OptID.OPT_nostdincxx "-nostdinc++"] [OptID.OPT_nostdincxx] = true ∧
      AddClangCXXStdlibIncludeArgs sdkToolChain [flagArg OptID.OPT_nostdincxx "-nostdinc++"]
          ["-cc1"] =
        (some ["-cc1"], [])) ∧
    (hasArg [flagArg OptID.OPT_nostdinc "-nostdinc"] [OptID.OPT_nostdlibinc] = false ∧
      hasArg [flagArg OptID.OPT_nostdinc "-nostdinc"] [OptID.OPT_nostdincxx] = false ∧
      AddClangCXXStdlibIncludeArgs sdkToolChain [flagArg OptID.OPT_nostdinc "-nostdinc"]
          ["-cc1"] =
        (some ["-cc1", "-internal-isystem", "/sdk/include/c++/v1"], [])) :=
  ⟨⟨by decide,
    (C10_AddClangCXXStdlibIncludeArgs_guard sdkToolChain
      [flagArg OptID.OPT_nostdincxx "-nostdinc++"] ["-cc1"]).1 (Or.inr (by decide))⟩,
   by decide, by decide,
   (C10_AddClangCXXStdlibIncludeArgs_guard sdkToolChain
      [flagArg OptID.OPT_nostdinc "-nostdinc"] ["-cc1"]).2 (by decide) (by decide)⟩

/-! ## The system include list -/

/-- Claim C11. `AddClangSystemIncludeArgs` leaves the accumulated arguments as they are and adds
the entries of the stated include list, each through its helper: nothing when nostdinc is set;
otherwise `<resource-dir>/include` unless nobuiltininc is set, then, unless nostdlibinc is set,
`<sysroot>/include` as an extern C system include when the system root is not empty. The list
has at most two entries, and the built-in directory, when present, is its first entry. -/
theorem C11_AddClangSystemIncludeArgs_list (TC : ToolChain) (DriverArgs : ArgList)
    (CC1Args : ArgStringList) :
    AddClangSystemIncludeArgs TC DriverArgs CC1Args =
      CC1Args ++ ((systemIncludeEntries TC DriverArgs).map (IncludeEntry.render TC)).flatten ∧
    (hasArg DriverArgs [OptID.OPT_nostdinc] = true → systemIncludeEntries TC DriverArgs = []) ∧
    (systemIncludeEntries TC DriverArgs).length ≤ 2 ∧
    (hasArg DriverArgs [OptID.OPT_nostdinc] = false →
      hasArg DriverArgs [OptID.OPT_nobuiltininc] = false →
      (systemIncludeEntries TC DriverArgs).head? =
        some (IncludeEntry.System (TC.path_append TC.D.ResourceDir ["include"]))) ∧
    (∀ Path : String, IncludeEntry.System Path ∈ systemIncludeEntries TC DriverArgs →
      (systemIncludeEntries TC DriverArgs).head? = some (IncludeEntry.System Path)) := by
  refine ⟨?_, ?_, ?_, ?_, ?_⟩
  · unfold AddClangSystemIncludeArgs systemIncludeEntries
    by_cases h1 : hasArg DriverArgs [OptID.OPT_nostdinc] = true
    · simp [h1]
    · by_cases h2 : hasArg DriverArgs [OptID.OPT_nobuiltininc] = true <;>
        by_cases h3 : hasArg DriverArgs [OptID.OPT_nostdlibinc] = true <;>
        by_cases h4 : TC.D.SysRoot = "" <;>
        simp [h1, h2, h3, h4, IncludeEntry.render]
  · intro h1
    simp [systemIncludeEntries, h1]
  · unfold systemIncludeEntries
    split
    · simp
    · rw [List.length_append]
      have hA : (if hasArg DriverArgs [OptID.OPT_nobuiltininc] = true then []
          else [IncludeEntry.System (TC.path_append TC.D.ResourceDir ["include"])]).length ≤ 1 := by
        split <;> simp
      have hB : (if hasArg DriverArgs [OptID.OPT_nostdlibinc] = true then []
          else if TC.D.SysRoot ≠ "" then
            [IncludeEntry.ExternCSystem (TC.path_append TC.D.SysRoot ["include"])]
          else []).length ≤ 1 := by
        split
        · simp
        · split <;> simp
      omega
  · intro h1 h2
    simp [systemIncludeEntries, h1, h2]
  · intro Path hmem
    unfold systemIncludeEntries at hmem ⊢
    by_cases h1 : hasArg DriverArgs [OptID.OPT_nostdinc] = true
    · simp [h1] at hmem
    · by_cases h2 : hasArg DriverArgs [OptID.OPT_nobuiltininc] = true
      · by_cases h3 : hasArg DriverArgs [OptID.OPT_nostdlibinc] = true <;>
          by_cases h4 : TC.D.SysRoot = "" <;> simp [h1, h2, h3, h4] at hmem
      · by_cases h3 : hasArg DriverArgs [OptID.OPT_nostdlibinc] = true <;>
          by_cases h4 : TC.D.SysRoot = "" <;> simp [h1, h2, h3, h4] at hmem ⊢ <;> exact hmem.symm

/-- Claim C11 under the system root `/sdk` and the resource directory `/res`: without options the
list is `/res/include` then `/sdk/include`, and `-nostdinc` empties it. -/
theorem C11_AddClangSystemIncludeArgs_list_witness :
    AddClangSystemIncludeArgs sdkToolChain [] ["-cc1"] =
      ["-cc1", "-internal-isystem", "/res/include", "-internal-externc-isystem",
       "/sdk/include"] ∧
    (hasArg ([] : ArgList) [OptID.OPT_nostdinc] = false ∧
      hasArg ([] : ArgList) [OptID.OPT_nobuiltininc] = false ∧
      (systemIncludeEntries sdkToolChain []).head? = some (IncludeEntry.System "/res/include")) ∧
    (hasArg [flagArg OptID.OPT_nostdinc "-nostdinc"] [OptID.OPT_nostdinc] = true ∧
      systemIncludeEntries sdkToolChain [flagArg OptID.OPT_nostdinc "-nostdinc"] = []) :=
  ⟨(C11_AddClangSystemIncludeArgs_list sdkToolChain [] ["-cc1"]).1,
   ⟨by decide, by decide,
    (C11_AddClangSystemIncludeArgs_list sdkToolChain [] ["-cc1"]).2.2.2.1 (by decide)
      (by decide)⟩,
   ⟨by decide,
    (C11_AddClangSystemIncludeArgs_list sdkToolChain
      [flagArg OptID.OPT_nostdinc "-nostdinc"] ["-cc1"]).2.1 (by decide)⟩⟩

/-! ## The nostdlib example -/

/-- Claim C12, refuted as stated: the first example with nostdlib set emits `--sysroot=/sdk` and
the library path of the toolchain besides `-o`, `a.out` and `a.o`. -/
theorem C12_nostdlib_example_counterexample :
    ConstructJob sdkToolChain emptyCompilation { Kind := 0 } (InputInfo.Filename "a.out")
        [InputInfo.Filename "a.o"] [flagArg OptID.OPT_nostdlib "-nostdlib"] =
      some { Jobs := [{
               Source := { Kind := 0 }
               Executable := "ld.lld"
               Arguments := ["--sysroot=/sdk", "-o", "a.out", "-L/sdk/lib", "a.o"]
               Inputs := [InputInfo.Filename "a.o"] }]
             Diags := [] } ∧
    "--sysroot=/sdk" ∈ ["--sysroot=/sdk", "-o", "a.out", "-L/sdk/lib", "a.o"] ∧
    ["--sysroot=/sdk", "-o", "a.out", "-L/sdk/lib", "a.o"] ≠ ["-o", "a.out", "a.o"] := by
  refine ⟨by rfl, by decide, by decide⟩

/-- Claim C12, amended. For the first example with nostdlib set, under any toolchain with the
system root `/sdk` and LTO inactive, the argument list is `--sysroot=/sdk`, `-o`, `a.out`, the
library-path args of the toolchain and the forwarded input `a.o`, and nothing else: the builder
adds no crt1, no `-lc++`, no `-lm` and no `-lc`. -/
theorem C12_nostdlib_example_vector (TC : ToolChain) (C : Compilation) (JA : JobAction)
    (hSysRoot : TC.D.SysRoot = "/sdk")
    (hLTO : TC.D.isUsingLTO = false) :
    ConstructJob TC C JA (InputInfo.Filename "a.out") [InputInfo.Filename "a.o"]
        [flagArg OptID.OPT_nostdlib "-nostdlib"] =
      some { Jobs := C.Jobs ++ [{
               Source := JA
               Executable := TC.GetLinkerPath
               Arguments :=
                 ["--sysroot=/sdk", "-o", "a.out"] ++
                 TC.AddFilePathLibArgs [flagArg OptID.OPT_nostdlib "-nostdlib"] ++
                 TC.AddLinkerInputs [InputInfo.Filename "a.o"]
                   [flagArg OptID.OPT_nostdlib "-nostdlib"] JA
               Inputs := [InputInfo.Filename "a.o"] }]
             Diags := C.Diags } := by
  rw [ConstructJob_eq TC C JA "a.out" [InputInfo.Filename "a.o"]
    [flagArg OptID.OPT_nostdlib "-nostdlib"] (by simp [hLTO])]
  have h1 : hasArg [flagArg OptID.OPT_nostdlib "-nostdlib"] [OptID.OPT_nostdlib] = true := by
    decide
  have h2 : hasArg [flagArg OptID.OPT_nostdlib "-nostdlib"] [OptID.OPT_s] = false := by decide
  have h3 : hasArg [flagArg OptID.OPT_nostdlib "-nostdlib"] [OptID.OPT_static] = false := by
    decide
  have h4 : hasArg [flagArg OptID.OPT_nostdlib "-nostdlib"] [OptID.OPT_shared] = false := by
    decide
  have h5 : forwardedArgs [flagArg OptID.OPT_nostdlib "-nostdlib"] = [] := by decide
  simp [linkArgs, linkDiags, headerArgs, startFileArgs, ltoArgs, defaultLibArgs, h1, h2, h3,
    h4, h5, hSysRoot, hLTO]

/-- The amended claim C12 at the concrete toolchain: the list is `--sysroot=/sdk`, `-o`, `a.out`,
`-L/sdk/lib`, `a.o`. -/
theorem C12_nostdlib_example_vector_witness :
    (sdkToolChain.D.SysRoot = "/sdk" ∧ sdkToolChain.D.isUsingLTO = false) ∧
    ConstructJob sdkToolChain emptyCompilation { Kind := 0 } (InputInfo.Filename "a.out")
        [InputInfo.Filename "a.o"] [flagArg OptID.OPT_nostdlib "-nostdlib"] =
      some { Jobs := [{
               Source := { Kind := 0 }
               Executable := "ld.lld"
               Arguments := ["--sysroot=/sdk", "-o", "a.out", "-L/sdk/lib", "a.o"]
               Inputs := [InputInfo.Filename "a.o"] }]
             Diags := [] } :=
  ⟨⟨rfl, rfl⟩,
   C12_nostdlib_example_vector sdkToolChain emptyCompilation { Kind := 0 } rfl rfl⟩

/-! ## The runtime and unwind libraries -/

/-- Claim C13. For every option list `GetRuntimeLibType` returns the default
`GetDefaultRuntimeLibType`, which is compiler-rt, and `GetUnwindLibType` returns the compiler-rt
unwinder. `GetRuntimeLibType` reports `err_drv_invalid_rtlib_name`, with the spelling of the
option, exactly when a `-rtlib=` option is present and the value of its last occurrence is not
`compiler-rt`; it reports nothing otherwise, in particular when the option is not given. -/
theorem C13_runtime_and_unwind_lib (Args : ArgList) :
    (GetRuntimeLibType Args).1 = GetDefaultRuntimeLibType ∧
    GetDefaultRuntimeLibType = RuntimeLibType.RLT_CompilerRT ∧
    GetUnwindLibType Args = UnwindLibType.UNW_CompilerRT ∧
    (∀ A : Arg, getLastArg Args [OptID.OPT_rtlib_EQ] = some A → A.Value ≠ "compiler-rt" →
      (GetRuntimeLibType Args).2 =
        [{ ID := DiagID.err_drv_invalid_rtlib_name, Argument := A.AsString }]) ∧
    ((GetRuntimeLibType Args).2 ≠ [] ↔
      ∃ A : Arg, getLastArg Args [OptID.OPT_rtlib_EQ] = some A ∧ A.Value ≠ "compiler-rt") ∧
    (hasArg Args [OptID.OPT_rtlib_EQ] = false → (GetRuntimeLibType Args).2 = []) := by
  refine ⟨rfl, rfl, rfl, ?_, ?_, ?_⟩
  · intro A hLast hValue
    simp [GetRuntimeLibType, hLast, hValue]
  · unfold GetRuntimeLibType
    cases hLast : getLastArg Args [OptID.OPT_rtlib_EQ] with
    | none => simp
    | some A =>
      by_cases hValue : A.Value = "compiler-rt" <;> simp [hValue]
  · intro hNone
    unfold hasArg at hNone
    unfold GetRuntimeLibType
    cases hLast : getLastArg Args [OptID.OPT_rtlib_EQ] with
    | none => rfl
    | some A => simp [hLast] at hNone

/-- Claim C13 at two option lists: `-rtlib=libgcc` is reported with its spelling, and the empty
list is not. -/
theorem C13_runtime_and_unwind_lib_witness :
    (getLastArg [rtlibLibgccArg] [OptID.OPT_rtlib_EQ] = some rtlibLibgccArg ∧
      rtlibLibgccArg.Value ≠ "compiler-rt" ∧
      (GetRuntimeLibType [rtlibLibgccArg]).2 =
        [{ ID := DiagID.err_drv_invalid_rtlib_name, Argument := "-rtlib=libgcc" }]) ∧
    (hasArg ([] : ArgList) [OptID.OPT_rtlib_EQ] = false ∧ (GetRuntimeLibType []).2 = []) :=
  ⟨⟨by decide, by decide,
    (C13_runtime_and_unwind_lib [rtlibLibgccArg]).2.2.2.1 rtlibLibgccArg (by decide)
      (by decide)⟩,
   ⟨by decide, (C13_runtime_and_unwind_lib []).2.2.2.2.2 (by decide)⟩⟩

/-! ## The cc1 options of the platform -/

/-- Claim C14. For every compile request and every offload kind, `addClangTargetOptions` leaves
the accumulated flags as they are and appends `-fno-use-init-array` exactly when the last of
`-fuse-init-array` and `-fno-use-init-array` is the negative form, followed by
`-mlong-double-64`, `-ffunction-sections` and `-fdata-sections` in that order. -/
theorem C14_addClangTargetOptions_flags (DriverArgs : ArgList) (CC1Args : ArgStringList)
    (DeviceOffloadKind : OffloadKind) :
    addClangTargetOptions DriverArgs CC1Args DeviceOffloadKind =
      CC1Args ++
      (if (getLastArg DriverArgs
            [OptID.OPT_fuse_init_array, OptID.OPT_fno_use_init_array]).map Arg.ID =
          some OptID.OPT_fno_use_init_array
       then ["-fno-use-init-array"] else []) ++
      ["-mlong-double-64", "-ffunction-sections", "-fdata-sections"] := by
  unfold addClangTargetOptions hasFlag
  cases hLast : getLastArg DriverArgs
      [OptID.OPT_fuse_init_array, OptID.OPT_fno_use_init_array] with
  | none => simp
  | some A =>
    have hmem : A.ID = OptID.OPT_fuse_init_array ∨ A.ID = OptID.OPT_fno_use_init_array := by
      unfold getLastArg at hLast
      have h := List.mem_of_getLast?_eq_some hLast
      simpa using (List.mem_filter.mp h).2
    rcases hmem with h | h <;> simp [h]

/-! ## The C++ standard library is always libc++ -/

/-- Claim C19. For every option list, those with an unsupported `-stdlib=` value included,
`GetCXXStdlibType` returns libc++. The unreachable branches of `AddClangCXXStdlibIncludeArgs`
and of `AddCXXStdlibLibArgs` are therefore never taken: both return a list, and
`AddCXXStdlibLibArgs` appends exactly `-lc++`. -/
theorem C19_stdlib_always_libcxx (TC : ToolChain) (Args : ArgList) (CmdArgs : ArgStringList) :
    (GetCXXStdlibType Args).1 = CXXStdlibType.CST_Libcxx ∧
    (AddCXXStdlibLibArgs Args CmdArgs).1 = some (CmdArgs ++ ["-lc++"]) ∧
    (AddClangCXXStdlibIncludeArgs TC Args CmdArgs).1 ≠ none := by
  refine ⟨rfl, rfl, ?_⟩
  unfold AddClangCXXStdlibIncludeArgs
  split
  · simp
  · simp [GetCXXStdlibType]

/-! ## Forwarded options, the dynamic switch, the C++ group and LTO -/

/-- With LTO active and no input the assertion of the builder fails: no command is built. -/
theorem ConstructJob_lto_no_input (TC : ToolChain) (C : Compilation) (JA : JobAction)
    (Out : String) (Args : ArgList) (hLTO : TC.D.isUsingLTO = true) :
    ConstructJob TC C JA (InputInfo.Filename Out) [] Args = none := by
  unfold ConstructJob
  simp [InputInfo.getFilename, hLTO]

/-- Claim C15, refuted as stated: for the link `-u sym -L/p a.o` the forwarded segment is `-L/p`,
`-u`, `sym`; the options in their command-line order, `-u`, `sym`, `-L/p`, do not occur in the
argument list. -/
theorem C15_interleaved_L_u_counterexample :
    ConstructJob sdkToolChain emptyCompilation { Kind := 0 } (InputInfo.Filename "a.out")
        [InputInfo.Filename "a.o"] [undefinedSymArg, libraryPathArg] =
      some { Jobs := [{
               Source := { Kind := 0 }
               Executable := "ld.lld"
               Arguments :=
                 ["--sysroot=/sdk", "-o", "a.out", "/sdk/lib/crt1.o", "-L/p", "-u", "sym",
                  "-L/sdk/lib", "a.o", "--push-state", "--as-needed", "-lc++", "-lm",
                  "--pop-state", "/res/lib/libclang_rt.builtins.a", "-lc"]
               Inputs := [InputInfo.Filename "a.o"] }]
             Diags := [] } ∧
    (([undefinedSymArg, libraryPathArg].filter
        (fun A => A.ID == OptID.OPT_L || A.ID == OptID.OPT_u)).map Arg.Rendered).flatten =
      ["-u", "sym", "-L/p"] ∧
    ¬ (["-u", "sym", "-L/p"] <:+:
        ["--sysroot=/sdk", "-o", "a.out", "/sdk/lib/crt1.o", "-L/p", "-u", "sym",
         "-L/sdk/lib", "a.o", "--push-state", "--as-needed", "-lc++", "-lm",
         "--pop-state", "/res/lib/libclang_rt.builtins.a", "-lc"]) := by
  refine ⟨by rfl, by decide, by decide⟩

/-- Claim C15, amended. Whenever the builder returns, the segment after the start object and
before the library paths of the toolchain is all the `-L` options of the user, in the order
given, followed by all the `-u` options of the user, in the order given: the order within each
kind is kept, and every `-L` option comes before every `-u` option. -/
theorem C15_forwarded_L_then_u (TC : ToolChain) (C : Compilation) (JA : JobAction)
    (Out : String) (Inputs : InputInfoList) (Args : ArgList)
    (hLTO : TC.D.isUsingLTO = true → Inputs ≠ []) :
    ConstructJob TC C JA (InputInfo.Filename Out) Inputs Args =
      some { Jobs := C.Jobs ++ [{
               Source := JA
               Executable := TC.GetLinkerPath
               Arguments :=
                 headerArgs TC Out Args ++ startFileArgs TC Args ++
                 (((Args.filter (fun A => A.ID == OptID.OPT_L)).map Arg.Rendered).flatten ++
                  ((Args.filter (fun A => A.ID == OptID.OPT_u)).map Arg.Rendered).flatten) ++
                 TC.AddFilePathLibArgs Args ++
                 (ltoArgs TC Out Inputs Args ++ TC.AddLinkerInputs Inputs Args JA ++
                  defaultLibArgs TC Args)
               Inputs := Inputs }]
             Diags := C.Diags ++ linkDiags TC Args } := by
  rw [ConstructJob_eq TC C JA Out Inputs Args hLTO]
  simp [linkArgs, forwardedArgs]

/-- The amended claim C15 at the link `-nostdlib -u sym -L/p a.o` under the system root `/sdk`. -/
theorem C15_forwarded_L_then_u_witness :
    (sdkToolChain.D.isUsingLTO = true → [InputInfo.Filename "a.o"] ≠ []) ∧
    ConstructJob sdkToolChain emptyCompilation { Kind := 0 } (InputInfo.Filename "a.out")
        [InputInfo.Filename "a.o"]
        [flagArg OptID.OPT_nostdlib "-nostdlib", undefinedSymArg, libraryPathArg] =
      some { Jobs := [{
               Source := { Kind := 0 }
               Executable := "ld.lld"
               Arguments := ["--sysroot=/sdk", "-o", "a.out", "-L/p", "-u", "sym", "-L/sdk/lib",
                             "a.o"]
               Inputs := [InputInfo.Filename "a.o"] }]
             Diags := [] } :=
  ⟨by decide,
   C15_forwarded_L_then_u sdkToolChain emptyCompilation { Kind := 0 } "a.out"
     [InputInfo.Filename "a.o"]
     [flagArg OptID.OPT_nostdlib "-nostdlib", undefinedSymArg, libraryPathArg] (by decide)⟩

/-- Claim C16. Whenever the builder returns, the argument right after the forwarded linker inputs
is `-Bdynamic` exactly when static is set and neither nostdlib nor nodefaultlibs is; the
condition mentions neither static-libstdc++ nor the C++ mode nor the linking of the C++ standard
library. Otherwise nothing is emitted at that position: the inputs are followed at once by the
default libraries, or by nothing when these are suppressed. -/
theorem C16_dynamic_switch_after_inputs (TC : ToolChain) (C : Compilation) (JA : JobAction)
    (Out : String) (Inputs : InputInfoList) (Args : ArgList)
    (hLTO : TC.D.isUsingLTO = true → Inputs ≠ []) :
    ConstructJob TC C JA (InputInfo.Filename Out) Inputs Args =
      some { Jobs := C.Jobs ++ [{
               Source := JA
               Executable := TC.GetLinkerPath
               Arguments :=
                 (headerArgs TC Out Args ++ startFileArgs TC Args ++ forwardedArgs Args ++
                  TC.AddFilePathLibArgs Args ++ ltoArgs TC Out Inputs Args ++
                  TC.AddLinkerInputs Inputs Args JA) ++
                 (if hasArg Args [OptID.OPT_static] = true ∧
                      hasArg Args [OptID.OPT_nostdlib] = false ∧
                      hasArg Args [OptID.OPT_nodefaultlibs] = false
                  then ["-Bdynamic"] else []) ++
                 (if hasArg Args [OptID.OPT_nostdlib] = false ∧
                      hasArg Args [OptID.OPT_nodefaultlibs] = false
                  then cxxGroupArgs TC Args ++ (TC.AddRunTimeLibs Args).1 ++
                       (if hasArg Args [OptID.OPT_nolibc] = false then ["-lc"] else [])
                  else [])
               Inputs := Inputs }]
             Diags := C.Diags ++ linkDiags TC Args } := by
  rw [ConstructJob_eq TC C JA Out Inputs Args hLTO]
  by_cases h1 : hasArg Args [OptID.OPT_nostdlib] = false <;>
    by_cases h2 : hasArg Args [OptID.OPT_nodefaultlibs] = false <;>
    by_cases h3 : hasArg Args [OptID.OPT_static] = true <;>
    simp [linkArgs, defaultLibArgs, h1, h2, h3]

/-- Claim C16 at the link `-static a.o` with the C++ standard library not linked: `-Bdynamic`
follows `a.o` although no C++ group is emitted. -/
theorem C16_dynamic_switch_after_inputs_witness :
    ({ sdkToolChain with ShouldLinkCXXStdlib := fun _ => false }.D.isUsingLTO = true →
        [InputInfo.Filename "a.o"] ≠ []) ∧
    ConstructJob { sdkToolChain with ShouldLinkCXXStdlib := fun _ => false } emptyCompilation
        { Kind := 0 } (InputInfo.Filename "a.out")
        [InputInfo.Filename "a.o"] [flagArg OptID.OPT_static "-static"] =
      some { Jobs := [{
               Source := { Kind := 0 }
               Executable := "ld.lld"
               Arguments :=
                 ["--sysroot=/sdk", "-Bstatic", "-o", "a.out", "/sdk/lib/crt1.o", "-L/sdk/lib",
                  "a.o", "-Bdynamic", "/res/lib/libclang_rt.builtins.a", "-lc"]
               Inputs := [InputInfo.Filename "a.o"] }]
             Diags := [] } :=
  ⟨by decide,
   C16_dynamic_switch_after_inputs { sdkToolChain with ShouldLinkCXXStdlib := fun _ => false }
     emptyCompilation { Kind := 0 } "a.out" [InputInfo.Filename "a.o"]
     [flagArg OptID.OPT_static "-static"] (by decide)⟩

/-- Claim C17. With the default libraries not suppressed, in C++ mode with the C++ standard
library to be linked, the C++ group is exactly `--push-state`, `--as-needed`, then `-Bstatic`
when static-libstdc++ is set and static is not, then `-lc++`, then `-Bdynamic` under the same
condition, then `-lm` and `--pop-state`; outside C++ mode, or when the library is not to be
linked, the group is empty. The group stands between the dynamic switch and the
runtime-library args. -/
theorem C17_cxx_group (TC : ToolChain) (C : Compilation) (JA : JobAction)
    (Out : String) (Inputs : InputInfoList) (Args : ArgList)
    (hLTO : TC.D.isUsingLTO = true → Inputs ≠ [])
    (hNoStdlib : hasArg Args [OptID.OPT_nostdlib] = false)
    (hNoDefaultLibs : hasArg Args [OptID.OPT_nodefaultlibs] = false) :
    ConstructJob TC C JA (InputInfo.Filename Out) Inputs Args =
      some { Jobs := C.Jobs ++ [{
               Source := JA
               Executable := TC.GetLinkerPath
               Arguments :=
                 (headerArgs TC Out Args ++ startFileArgs TC Args ++ forwardedArgs Args ++
                  TC.AddFilePathLibArgs Args ++ ltoArgs TC Out Inputs Args ++
                  TC.AddLinkerInputs Inputs Args JA ++
                  (if hasArg Args [OptID.OPT_static] = true then ["-Bdynamic"] else [])) ++
                 (if TC.D.CCCIsCXX = true ∧ TC.ShouldLinkCXXStdlib Args = true then
                    ["--push-state", "--as-needed"] ++
                    (if hasArg Args [OptID.OPT_static_libstdcxx] = true ∧
                         hasArg Args [OptID.OPT_static] = false
                     then ["-Bstatic"] else []) ++
                    ["-lc++"] ++
                    (if hasArg Args [OptID.OPT_static_libstdcxx] = true ∧
                         hasArg Args [OptID.OPT_static] = false
                     then ["-Bdynamic"] else []) ++
                    ["-lm", "--pop-state"]
                  else []) ++
                 ((TC.AddRunTimeLibs Args).1 ++
                  (if hasArg Args [OptID.OPT_nolibc] = false then ["-lc"] else []))
               Inputs := Inputs }]
             Diags := C.Diags ++ linkDiags TC Args } := by
  rw [ConstructJob_eq TC C JA Out Inputs Args hLTO]
  simp [linkArgs, defaultLibArgs, cxxGroupArgs, hNoStdlib, hNoDefaultLibs]

/-- Claim C17 at the link `-static-libstdc++ a.o` under the system root `/sdk`: the group is
`--push-state`, `--as-needed`, `-Bstatic`, `-lc++`, `-Bdynamic`, `-lm`, `--pop-state`. -/
theorem C17_cxx_group_witness :
    ((sdkToolChain.D.isUsingLTO = true → [InputInfo.Filename "a.o"] ≠ []) ∧
      hasArg [flagArg OptID.OPT_static_libstdcxx "-static-libstdc++"] [OptID.OPT_nostdlib] =
        false ∧
      hasArg [flagArg OptID.OPT_static_libstdcxx "-static-libstdc++"]
        [OptID.OPT_nodefaultlibs] = false) ∧
    ConstructJob sdkToolChain emptyCompilation { Kind := 0 } (InputInfo.Filename "a.out")
        [InputInfo.Filename "a.o"] [flagArg OptID.OPT_static_libstdcxx "-static-libstdc++"] =
      some { Jobs := [{
               Source := { Kind := 0 }
               Executable := "ld.lld"
               Arguments :=
                 ["--sysroot=/sdk", "-o", "a.out", "/sdk/lib/crt1.o", "-L/sdk/lib", "a.o",
                  "--push-state", "--as-needed", "-Bstatic", "-lc++", "-Bdynamic", "-lm",
                  "--pop-state", "/res/lib/libclang_rt.builtins.a", "-lc"]
               Inputs := [InputInfo.Filename "a.o"] }]
             Diags := [] } :=
  ⟨⟨by decide, by decide, by decide⟩,
   C17_cxx_group sdkToolChain emptyCompilation { Kind := 0 } "a.out"
     [InputInfo.Filename "a.o"] [flagArg OptID.OPT_static_libstdcxx "-static-libstdc++"]
     (by decide) (by decide) (by decide)⟩

/-- Claim C18. With LTO active and a first input, the assertion holds and the LTO configuration
is what `addLTOOptions` derives from the output and the first input, thin exactly when the LTO
mode is `LTOK_Thin`, emitted after the library paths of the toolchain and before the linker
inputs. With LTO active and no input the assertion fails and no command is built. With LTO
inactive no LTO configuration is emitted, whatever the inputs, the empty list included. -/
theorem C18_lto_options (TC : ToolChain) (C : Compilation) (JA : JobAction)
    (Out : String) (Args : ArgList) :
    (TC.D.isUsingLTO = true → ∀ (Input0 : InputInfo) (Rest : InputInfoList),
      ConstructJob TC C JA (InputInfo.Filename Out) (Input0 :: Rest) Args =
        some { Jobs := C.Jobs ++ [{
                 Source := JA
                 Executable := TC.GetLinkerPath
                 Arguments :=
                   (headerArgs TC Out Args ++ startFileArgs TC Args ++ forwardedArgs Args ++
                    TC.AddFilePathLibArgs Args) ++
                   TC.addLTOOptions Args (InputInfo.Filename Out) Input0
                     (TC.D.getLTOMode == LTOKind.LTOK_Thin) ++
                   (TC.AddLinkerInputs (Input0 :: Rest) Args JA ++ defaultLibArgs TC Args)
                 Inputs := Input0 :: Rest }]
               Diags := C.Diags ++ linkDiags TC Args }) ∧
    (TC.D.isUsingLTO = true →
      ConstructJob TC C JA (InputInfo.Filename Out) [] Args = none) ∧
    (TC.D.isUsingLTO = false → ∀ Inputs : InputInfoList,
      ConstructJob TC C JA (InputInfo.Filename Out) Inputs Args =
        some { Jobs := C.Jobs ++ [{
                 Source := JA
                 Executable := TC.GetLinkerPath
                 Arguments :=
                   (headerArgs TC Out Args ++ startFileArgs TC Args ++ forwardedArgs Args ++
                    TC.AddFilePathLibArgs Args) ++
                   (TC.AddLinkerInputs Inputs Args JA ++ defaultLibArgs TC Args)
                 Inputs := Inputs }]
               Diags := C.Diags ++ linkDiags TC Args }) := by
  refine ⟨?_, ?_, ?_⟩
  · intro hLTO Input0 Rest
    rw [ConstructJob_eq TC C JA Out (Input0 :: Rest) Args (by simp)]
    simp [linkArgs, ltoArgs, hLTO]
  · intro hLTO
    exact ConstructJob_lto_no_input TC C JA Out Args hLTO
  · intro hLTO Inputs
    rw [ConstructJob_eq TC C JA Out Inputs Args (by simp [hLTO])]
    simp [linkArgs, ltoArgs, hLTO]

/-- Claim C18 at three links with `-nostdlib` under the system root `/sdk`: thin LTO with the
input `a.o`, thin LTO without input, and no LTO without input. -/
theorem C18_lto_options_witness :
    (sdkToolChainLTO.D.isUsingLTO = true ∧
      ConstructJob sdkToolChainLTO emptyCompilation { Kind := 0 } (InputInfo.Filename "a.out")
          [InputInfo.Filename "a.o"] [flagArg OptID.OPT_nostdlib "-nostdlib"] =
        some { Jobs := [{
                 Source := { Kind := 0 }
                 Executable := "ld.lld"
                 Arguments := ["--sysroot=/sdk", "-o", "a.out", "-L/sdk/lib",
                               "-plugin-opt=thinlto", "a.o"]
                 Inputs := [InputInfo.Filename "a.o"] }]
               Diags := [] } ∧
      ConstructJob sdkToolChainLTO emptyCompilation { Kind := 0 } (InputInfo.Filename "a.out")
          [] [flagArg OptID.OPT_nostdlib "-nostdlib"] = none) ∧
    (sdkToolChain.D.isUsingLTO = false ∧
      ConstructJob sdkToolChain emptyCompilation { Kind := 0 } (InputInfo.Filename "a.out")
          [] [flagArg OptID.OPT_nostdlib "-nostdlib"] =
        some { Jobs := [{
                 Source := { Kind := 0 }
                 Executable := "ld.lld"
                 Arguments := ["--sysroot=/sdk", "-o", "a.out", "-L/sdk/lib"]
                 Inputs := [] }]
               Diags := [] }) :=
  ⟨⟨rfl,
    (C18_lto_options sdkToolChainLTO emptyCompilation { Kind := 0 } "a.out"
      [flagArg OptID.OPT_nostdlib "-nostdlib"]).1 rfl (InputInfo.Filename "a.o") [],
    (C18_lto_options sdkToolChainLTO emptyCompilation { Kind := 0 } "a.out"
      [flagArg OptID.OPT_nostdlib "-nostdlib"]).2.1 rfl⟩,
   ⟨rfl,
    (C18_lto_options sdkToolChain emptyCompilation { Kind := 0 } "a.out"
      [flagArg OptID.OPT_nostdlib "-nostdlib"]).2.2 rfl []⟩⟩

/-! ## nostdlib against nostartfiles and nodefaultlibs -/

/-- Claim C20. Take two link requests that agree on strip, static and shared, on the forwarded
`-L` and `-u` options, and on the library paths, LTO options and linker inputs that the helpers
emit. (1) If the first has nostdlib set and the second has both nostartfiles and nodefaultlibs
set, the builder returns the same result for both. (2) If they also agree on nostdlib,
nodefaultlibs, nolibc and static-libstdc++ and on the default libraries the helpers emit, and
only the second has nostartfiles set, the second vector is the first one without the crt1 start
object. (3) If they also agree on nostdlib and nostartfiles, and only the second has
nodefaultlibs set, the second vector is the first one cut after the forwarded linker inputs. -/
theorem C20_nostdlib_nostartfiles_nodefaultlibs (TC : ToolChain) (C : Compilation)
    (JA : JobAction) (Out : String) (Inputs : InputInfoList) (Args1 Args2 : ArgList)
    (hLTO : TC.D.isUsingLTO = true → Inputs ≠ [])
    (hStrip : hasArg Args1 [OptID.OPT_s] = hasArg Args2 [OptID.OPT_s])
    (hStatic : hasArg Args1 [OptID.OPT_static] = hasArg Args2 [OptID.OPT_static])
    (hShared : hasArg Args1 [OptID.OPT_shared] = hasArg Args2 [OptID.OPT_shared])
    (hForwarded : forwardedArgs Args1 = forwardedArgs Args2)
    (hLibPaths : TC.AddFilePathLibArgs Args1 = TC.AddFilePathLibArgs Args2)
    (hLTOArgs : ltoArgs TC Out Inputs Args1 = ltoArgs TC Out Inputs Args2)
    (hInputs : TC.AddLinkerInputs Inputs Args1 JA = TC.AddLinkerInputs Inputs Args2 JA) :
    (hasArg Args1 [OptID.OPT_nostdlib] = true →
      hasArg Args2 [OptID.OPT_nostartfiles] = true →
      hasArg Args2 [OptID.OPT_nodefaultlibs] = true →
      ConstructJob TC C JA (InputInfo.Filename Out) Inputs Args1 =
        ConstructJob TC C JA (InputInfo.Filename Out) Inputs Args2) ∧
    (hasArg Args1 [OptID.OPT_nostartfiles] = false →
      hasArg Args2 [OptID.OPT_nostartfiles] = true →
      hasArg Args1 [OptID.OPT_nostdlib] = hasArg Args2 [OptID.OPT_nostdlib] →
      hasArg Args1 [OptID.OPT_nodefaultlibs] = hasArg Args2 [OptID.OPT_nodefaultlibs] →
      hasArg Args1 [OptID.OPT_nolibc] = hasArg Args2 [OptID.OPT_nolibc] →
      hasArg Args1 [OptID.OPT_static_libstdcxx] = hasArg Args2 [OptID.OPT_static_libstdcxx] →
      TC.ShouldLinkCXXStdlib Args1 = TC.ShouldLinkCXXStdlib Args2 →
      (TC.AddRunTimeLibs Args1).1 = (TC.AddRunTimeLibs Args2).1 →
      ∃ Tail : ArgStringList,
        (ConstructJob TC C JA (InputInfo.Filename Out) Inputs Args1).map Compilation.Jobs =
          some (C.Jobs ++ [{
            Source := JA
            Executable := TC.GetLinkerPath
            Arguments :=
              headerArgs TC Out Args1 ++
              (if hasArg Args1 [OptID.OPT_nostdlib] = false ∧
                   hasArg Args1 [OptID.OPT_shared] = false
               then [TC.GetFilePath "crt1.o"] else []) ++ Tail
            Inputs := Inputs }]) ∧
        (ConstructJob TC C JA (InputInfo.Filename Out) Inputs Args2).map Compilation.Jobs =
          some (C.Jobs ++ [{
            Source := JA
            Executable := TC.GetLinkerPath
            Arguments := headerArgs TC Out Args1 ++ Tail
            Inputs := Inputs }])) ∧
    (hasArg Args1 [OptID.OPT_nodefaultlibs] = false →
      hasArg Args2 [OptID.OPT_nodefaultlibs] = true →
      hasArg Args1 [OptID.OPT_nostdlib] = hasArg Args2 [OptID.OPT_nostdlib] →
      hasArg Args1 [OptID.OPT_nostartfiles] = hasArg Args2 [OptID.OPT_nostartfiles] →
      (ConstructJob TC C JA (InputInfo.Filename Out) Inputs Args1).map Compilation.Jobs =
          some (C.Jobs ++ [{
            Source := JA
            Executable := TC.GetLinkerPath
            Arguments :=
              (headerArgs TC Out Args1 ++ startFileArgs TC Args1 ++ forwardedArgs Args1 ++
               TC.AddFilePathLibArgs Args1 ++ ltoArgs TC Out Inputs Args1 ++
               TC.AddLinkerInputs Inputs Args1 JA) ++ defaultLibArgs TC Args1
            Inputs := Inputs }]) ∧
      (ConstructJob TC C JA (InputInfo.Filename Out) Inputs Args2).map Compilation.Jobs =
          some (C.Jobs ++ [{
            Source := JA
            Executable := TC.GetLinkerPath
            Arguments :=
              headerArgs TC Out Args1 ++ startFileArgs TC Args1 ++ forwardedArgs Args1 ++
              TC.AddFilePathLibArgs Args1 ++ ltoArgs TC Out Inputs Args1 ++
              TC.AddLinkerInputs Inputs Args1 JA
            Inputs := Inputs }])) := by
  have hHeader : headerArgs TC Out Args1 = headerArgs TC Out Args2 := by
    simp [headerArgs, hStrip, hStatic, hShared]
  rw [ConstructJob_eq TC C JA Out Inputs Args1 hLTO, ConstructJob_eq TC C JA Out Inputs Args2 hLTO]
  refine ⟨?_, ?_, ?_⟩
  · intro h1 h2 h3
    simp [linkArgs, linkDiags, startFileArgs, defaultLibArgs, hHeader, hForwarded, hLibPaths,
      hLTOArgs, hInputs, h1, h2, h3]
  · intro h1 h2 h3 h4 h5 h6 h7 h8
    refine ⟨forwardedArgs Args1 ++ TC.AddFilePathLibArgs Args1 ++ ltoArgs TC Out Inputs Args1 ++
      TC.AddLinkerInputs Inputs Args1 JA ++ defaultLibArgs TC Args1, ?_, ?_⟩
    · simp [linkArgs, startFileArgs, h1]
    · have hDefault : defaultLibArgs TC Args2 = defaultLibArgs TC Args1 := by
        simp [defaultLibArgs, cxxGroupArgs, h3, h4, h5, h6, h7, h8, hStatic]
      simp [linkArgs, startFileArgs, h2, hHeader, hForwarded, hLibPaths, hLTOArgs, hInputs,
        hDefault]
  · intro h1 h2 h3 h4
    constructor
    · simp [linkArgs]
    · have hStart : startFileArgs TC Args2 = startFileArgs TC Args1 := by
        simp [startFileArgs, h3, h4, hShared]
      simp [linkArgs, defaultLibArgs, h2, hHeader, hForwarded, hLibPaths, hLTOArgs, hInputs,
        hStart]

/-- Claim C20 under the system root `/sdk` with the input `a.o`: `-nostdlib` builds the same
command as `-nostartfiles -nodefaultlibs`; `-nostartfiles` removes `/sdk/lib/crt1.o` from the
plain link; `-nodefaultlibs` cuts the plain link after `a.o`. -/
theorem C20_nostdlib_nostartfiles_nodefaultlibs_witness :
    ((sdkToolChain.D.isUsingLTO = true → [InputInfo.Filename "a.o"] ≠ []) ∧
      hasArg [flagArg OptID.OPT_nostdlib "-nostdlib"] [OptID.OPT_nostdlib] = true ∧
      hasArg [flagArg OptID.OPT_nostartfiles "-nostartfiles",
              flagArg OptID.OPT_nodefaultlibs "-nodefaultlibs"] [OptID.OPT_nostartfiles] = true ∧
      hasArg [flagArg OptID.OPT_nostartfiles "-nostartfiles",
              flagArg OptID.OPT_nodefaultlibs "-nodefaultlibs"] [OptID.OPT_nodefaultlibs] = true ∧
      ConstructJob sdkToolChain emptyCompilation { Kind := 0 } (InputInfo.Filename "a.out")
          [InputInfo.Filename "a.o"] [flagArg OptID.OPT_nostdlib "-nostdlib"] =
        ConstructJob sdkToolChain emptyCompilation { Kind := 0 } (InputInfo.Filename "a.out")
          [InputInfo.Filename "a.o"]
          [flagArg OptID.OPT_nostartfiles "-nostartfiles",
           flagArg OptID.OPT_nodefaultlibs "-nodefaultlibs"]) ∧
    (∃ Tail : ArgStringList,
      (ConstructJob sdkToolChain emptyCompilation { Kind := 0 } (InputInfo.Filename "a.out")
          [InputInfo.Filename "a.o"] []).map Compilation.Jobs =
        some [{ Source := { Kind := 0 }
                Executable := "ld.lld"
                Arguments := ["--sysroot=/sdk", "-o", "a.out"] ++ ["/sdk/lib/crt1.o"] ++ Tail
                Inputs := [InputInfo.Filename "a.o"] }] ∧
      (ConstructJob sdkToolChain emptyCompilation { Kind := 0 } (InputInfo.Filename "a.out")
          [InputInfo.Filename "a.o"]
          [flagArg OptID.OPT_nostartfiles "-nostartfiles"]).map Compilation.Jobs =
        some [{ Source := { Kind := 0 }
                Executable := "ld.lld"
                Arguments := ["--sysroot=/sdk", "-o", "a.out"] ++ Tail
                Inputs := [InputInfo.Filename "a.o"] }]) ∧
    ((ConstructJob sdkToolChain emptyCompilation { Kind := 0 } (InputInfo.Filename "a.out")
          [InputInfo.Filename "a.o"] []).map Compilation.Jobs =
        some [{ Source := { Kind := 0 }
                Executable := "ld.lld"
                Arguments :=
                  ["--sysroot=/sdk", "-o", "a.out", "/sdk/lib/crt1.o", "-L/sdk/lib", "a.o"] ++
                  ["--push-state", "--as-needed", "-lc++", "-lm", "--pop-state",
                   "/res/lib/libclang_rt.builtins.a", "-lc"]
                Inputs := [InputInfo.Filename "a.o"] }] ∧
      (ConstructJob sdkToolChain emptyCompilation { Kind := 0 } (InputInfo.Filename "a.out")
          [InputInfo.Filename "a.o"]
          [flagArg OptID.OPT_nodefaultlibs "-nodefaultlibs"]).map Compilation.Jobs =
        some [{ Source := { Kind := 0 }
                Executable := "ld.lld"
                Arguments :=
                  ["--sysroot=/sdk", "-o", "a.out", "/sdk/lib/crt1.o", "-L/sdk/lib", "a.o"]
                Inputs := [InputInfo.Filename "a.o"] }]) :=
  ⟨⟨by decide, by decide, by decide, by decide,
    (C20_nostdlib_nostartfiles_nodefaultlibs sdkToolChain emptyCompilation { Kind := 0 } "a.out"
      [InputInfo.Filename "a.o"] [flagArg OptID.OPT_nostdlib "-nostdlib"]
      [flagArg OptID.OPT_nostartfiles "-nostartfiles",
       flagArg OptID.OPT_nodefaultlibs "-nodefaultlibs"]
      (by decide) rfl rfl rfl rfl rfl rfl rfl).1 (by decide) (by decide) (by decide)⟩,
   (C20_nostdlib_nostartfiles_nodefaultlibs sdkToolChain emptyCompilation { Kind := 0 } "a.out"
      [InputInfo.Filename "a.o"] [] [flagArg OptID.OPT_nostartfiles "-nostartfiles"]
      (by decide) rfl rfl rfl rfl rfl rfl rfl).2.1 (by decide) (by decide) rfl rfl rfl rfl rfl
      rfl,
   (C20_nostdlib_nostartfiles_nodefaultlibs sdkToolChain emptyCompilation { Kind := 0 } "a.out"
      [InputInfo.Filename "a.o"] [] [flagArg OptID.OPT_nodefaultlibs "-nodefaultlibs"]
      (by decide) rfl rfl rfl rfl rfl rfl rfl).2.2 (by decide) (by decide) rfl rfl⟩

end LFOS
